import Mathlib

/-!
Verification development for the metadata / code-generation backend of the
e9patch binary-instrumentation tool (source file: src/e9tool/e9metadata.cpp).

The emitted output of the C code is a comma-separated token stream written to
a FILE*.  We embed the stream as a `List Tok`, where the byte-emitting
primitives (sendSExtFromI32ToR64, sendMovFromR64ToR64, ...) that live in other
files of the repository are modelled as single abstract tokens carrying their
full semantic payload, and tokens printed literally by e9metadata.cpp itself
(opcode bytes, labels, relocation records) are embedded one by one.

Widths follow the C types: values that the C code stores as int32_t are
wrapped with `wrap32` at the points where the C performs a (possibly
truncating) conversion or an overflowing int32 addition.
-/

/-- Architectural register inventory (the subset of the e9tool Register enum
that this translation unit manipulates): 64-bit general-purpose registers,
their 32/16/8-bit variants needed by the code paths here, the flags register,
instruction pointers, segment registers, a representative non-GPR (xmm0), and
the none/invalid sentinels. -/
inductive Register where
  | rax | rcx | rdx | rbx | rsp | rbp | rsi | rdi
  | r8 | r9 | r10 | r11 | r12 | r13 | r14 | r15
  | rflags | rip
  | eax | ecx | edx | ebx | esp | ebp | esi | edi
  | r8d | r9d | r10d | r11d | r12d | r13d | r14d | r15d
  | eip
  | ax | cx | dx | bx | sp | bp | si | di
  | al | cl | dl | bl | ah | spl
  | fs | gs
  | xmm0
  | none | invalid
deriving DecidableEq

/-- Instruction mnemonics distinguished by e9metadata.cpp; every other
mnemonic is `other` with its textual name. -/
inductive Mnemonic where
  | ret | call | jmp
  | jo | jno | jb | jae | je | jne | jbe | ja
  | js | jns | jp | jnp | jl | jge | jle | jg
  | jcxz | jecxz | jrcxz
  | lea | nop
  | other (name : String)
deriving DecidableEq

/-- Operand classes (OPTYPE_* in e9tool). -/
inductive OpType where
  | imm | reg | mem | invalid
deriving DecidableEq

/-- Operand sub-field selectors (FIELD_* in e9tool). -/
inductive FieldKind where
  | none | displ | base | index | scale | size | type | access
deriving DecidableEq

/-- Argument kinds dispatched by sendLoadArgumentMetadata (ARGUMENT_* in
e9tool).  `invalid` stands for any argument kind that the dispatcher does not
recognize (the `default: error("NYI argument")` case). -/
inductive ArgumentKind where
  | user | integer | offset | addr | id | next | base | staticAddr
  | asm | asmSize | asmLen | bytes | bytesSize | target | trampoline
  | random | register | state | symbol | memop
  | op | src | dst | imm | reg | mem
  | invalid
deriving DecidableEq

/-- Call timing modes (CALL_* in e9tool). -/
inductive CallKind where
  | before | after | conditional | conditionalJump
deriving DecidableEq

/-- Action kinds (ACTION_* in e9tool). -/
inductive ActionKind where
  | print | call | exit | passthru | plugin | trap
deriving DecidableEq

/-- Base component of the e9tool Type bitmask. -/
inductive BaseKind where
  | nullTy | int8 | int16 | int32 | int64 | void | char
deriving DecidableEq

/-- The e9tool `Type` bitmask, split into its base kind and the PTR/CONST
tag bits (`t | TYPE_PTR`, `t | TYPE_CONST`). -/
structure Ty where
  base : BaseKind
  isPtr : Bool
  isConst : Bool
deriving DecidableEq

def TYPE_NULL_PTR : Ty := ⟨BaseKind.nullTy, false, false⟩
def TYPE_INT8 : Ty := ⟨BaseKind.int8, false, false⟩
def TYPE_INT16 : Ty := ⟨BaseKind.int16, false, false⟩
def TYPE_INT32 : Ty := ⟨BaseKind.int32, false, false⟩
def TYPE_INT64 : Ty := ⟨BaseKind.int64, false, false⟩
def TYPE_CONST_VOID_PTR : Ty := ⟨BaseKind.void, true, true⟩
def TYPE_CONST_CHAR_PTR : Ty := ⟨BaseKind.char, true, true⟩
def TYPE_CONST_INT8_PTR : Ty := ⟨BaseKind.int8, true, true⟩
def TYPE_VOID_PTR : Ty := ⟨BaseKind.void, true, false⟩

/-- The bitmask OR `t | TYPE_PTR`. -/
def Ty.addPtr (t : Ty) : Ty := { t with isPtr := true }

/-- The bitmask OR `t | TYPE_CONST`. -/
def Ty.addConst (t : Ty) : Ty := { t with isConst := true }

/-- Access bitmask (e9tool Access, a uint8_t). -/
abbrev Access := Nat

def ACCESS_READ : Access := 1
def ACCESS_WRITE : Access := 2

/-- POSIX PROT_READ, used as the access value for immediate operands. -/
def PROT_READ : Nat := 1

def INT8_MIN : Int := -128
def INT8_MAX : Int := 127
def INT32_MIN : Int := -2147483648
def INT32_MAX : Int := 2147483647
def UINT32_MAX : Int := 4294967295
def INTPTR_MIN : Int := -9223372036854775808

/-- Conversion of an Int to the int32_t it becomes under the wrapping
behaviour of the compiler used for this codebase (two's complement). -/
def wrap32 (v : Int) : Int := (v + 2147483648) % 4294967296 - 2147483648

/-- Low 32 bits of a value, as stored in an imm32 field. -/
def toU32 (v : Int) : Nat := (v % 4294967296).toNat

/-- Low 64 bits of a value, as stored in an imm64 field. -/
def toU64 (v : Int) : Nat := (v % 18446744073709551616).toNat

/-- Value of a 32-bit payload sign-extended to 64 bits. -/
def sint32 (pay : Nat) : Int :=
  if pay < 2147483648 then (pay : Int) else (pay : Int) - 4294967296

/-- Value of a 64-bit payload interpreted as a signed 64-bit integer. -/
def sint64 (pay : Nat) : Int :=
  if pay < 9223372036854775808 then (pay : Int)
  else (pay : Int) - 18446744073709551616

/-- Register index order of the e9tool register-index tables (reconstructed
from the B/X/R/REG encoding tables in sendLoadFromMemOpToR64, whose REX-bit
and ModRM-number entries uniquely identify each slot):
rdi=0, rsi=1, rdx=2, rcx=3, r8=4, r9=5, rflags=6, rax=7, r10=8, r11=9,
rbx=10, rbp=11, r12=12, r13=13, r14=14, r15=15, rsp=16. -/
def regIdxList : List Register :=
  [Register.rdi, Register.rsi, Register.rdx, Register.rcx, Register.r8,
   Register.r9, Register.rflags, Register.rax, Register.r10, Register.r11,
   Register.rbx, Register.rbp, Register.r12, Register.r13, Register.r14,
   Register.r15, Register.rsp]

def RMAX_IDX : Int := 17

def RAX_IDX : Int := 7
def RSP_IDX : Int := 16

/-- Modelled from the spec: getCanonicalReg maps each register variant to its
canonical 64-bit architectural register. -/
def getCanonicalReg (r : Register) : Register :=
  match r with
  | .eax | .ax | .al | .ah => .rax
  | .ecx | .cx | .cl => .rcx
  | .edx | .dx | .dl => .rdx
  | .ebx | .bx | .bl => .rbx
  | .esp | .sp | .spl => .rsp
  | .ebp | .bp => .rbp
  | .esi | .si => .rsi
  | .edi | .di => .rdi
  | .r8d => .r8
  | .r9d => .r9
  | .r10d => .r10
  | .r11d => .r11
  | .r12d => .r12
  | .r13d => .r13
  | .r14d => .r14
  | .r15d => .r15
  | .eip => .rip
  | r => r

/-- Modelled from the spec: getRegIdx maps a register (of any width) to the
e9tool register index of its canonical 64-bit register, or -1 when the
register has no index (rip, segment registers, non-GPRs, none, invalid). -/
def getRegIdx (r : Register) : Int :=
  match (regIdxList.indexOf? (getCanonicalReg r)) with
  | some i => (i : Int)
  | Option.none => -1

/-- Modelled from the spec: getReg maps a register index back to the 64-bit
register; out-of-range indices give REGISTER_INVALID. -/
def getReg (i : Int) : Register :=
  if 0 ≤ i ∧ i < 17 then regIdxList.getD i.toNat Register.invalid
  else Register.invalid

/-- Modelled from the spec: width in bytes of a register. -/
def getRegSize (r : Register) : Nat :=
  match r with
  | .rax | .rcx | .rdx | .rbx | .rsp | .rbp | .rsi | .rdi
  | .r8 | .r9 | .r10 | .r11 | .r12 | .r13 | .r14 | .r15 | .rip => 8
  | .eax | .ecx | .edx | .ebx | .esp | .ebp | .esi | .edi
  | .r8d | .r9d | .r10d | .r11d | .r12d | .r13d | .r14d | .r15d | .eip => 4
  | .ax | .cx | .dx | .bx | .sp | .bp | .si | .di | .rflags => 2
  | .al | .cl | .dl | .bl | .ah | .spl => 1
  | .xmm0 => 16
  | .fs | .gs => 2
  | .none | .invalid => 0

/-- Modelled from the spec: whether the register is a legacy high-byte
register (bits 8..15 of its canonical register). -/
def getRegHigh (r : Register) : Bool :=
  match r with
  | .ah => true
  | _ => false

/-- Modelled from the spec: getRegType gives the C-level integer type of a
register value (by width); registers that do not hold a plain integer value
(flags, instruction pointers, vector registers, none/invalid) give the null
type. -/
def getRegType (r : Register) : Ty :=
  match r with
  | .rflags | .rip | .eip | .fs | .gs | .xmm0 | .none | .invalid =>
      TYPE_NULL_PTR
  | r =>
      match getRegSize r with
      | 8 => TYPE_INT64
      | 4 => TYPE_INT32
      | 2 => TYPE_INT16
      | 1 => TYPE_INT8
      | _ => TYPE_NULL_PTR

/-- Modelled from the spec: textual name of a register, with the leading
percent sign (getRegName). -/
def getRegName (r : Register) : String :=
  match r with
  | .rax => "%rax"
  | .rcx => "%rcx"
  | .rdx => "%rdx"
  | .rbx => "%rbx"
  | .rsp => "%rsp"
  | .rbp => "%rbp"
  | .rsi => "%rsi"
  | .rdi => "%rdi"
  | .r8 => "%r8"
  | .r9 => "%r9"
  | .r10 => "%r10"
  | .r11 => "%r11"
  | .r12 => "%r12"
  | .r13 => "%r13"
  | .r14 => "%r14"
  | .r15 => "%r15"
  | .rflags => "%rflags"
  | .rip => "%rip"
  | _ => "%reg"

/-- Modelled from the spec: getArgRegIdx maps a System V AMD64 argument
position to the register index that receives it (rdi, rsi, rdx, rcx, r8, r9
for the first six; scratch registers r10 and r11 stage the two supported
stack arguments), or -1 when the position exceeds the maximum supported
number of arguments. -/
def getArgRegIdx (argno : Nat) : Int :=
  if argno < 6 then (argno : Int)
  else if argno = 6 then 8
  else if argno = 7 then 9
  else -1

/-- Memory-operand description (the mem part of an OpInfo). -/
structure MemOp where
  seg : Register
  disp : Int
  base : Register
  index : Register
  scale : Nat
deriving DecidableEq

/-- Operand descriptor (OpInfo).  The C union is flattened: `reg` is valid
for register operands, `mem` for memory operands, and `imm` for immediates. -/
structure OpInfo where
  type : OpType
  size : Nat
  access : Access
  reg : Register
  mem : MemOp
  imm : Int
deriving DecidableEq

/-- Instruction descriptor (InstrInfo), the read-only disassembly input. -/
structure InstrInfo where
  address : Int
  size : Nat
  offset : Int
  mnemonic : Mnemonic
  ops : List OpInfo
  instrStr : String
  data : List Nat
deriving DecidableEq

/-- Memory operand given literally in an argument spec (arg.memop). -/
structure MemOpArg where
  size : Nat
  seg : Register
  disp : Int
  base : Register
  index : Register
  scale : Nat
deriving DecidableEq

/-- One instrumentation argument (Argument).  In the C code the register for
ARGUMENT_REGISTER is stored in `value` as a casted enum; here it is carried
in the separate field `reg`. -/
structure Argument where
  kind : ArgumentKind
  ptr : Bool
  duplicate : Bool
  value : Int
  reg : Register
  name : String
  field : FieldKind
  memop : MemOpArg
deriving DecidableEq

/-- Argument-type signature used for symbol overload resolution (TypeSig). -/
abbrev TypeSig := List Ty

def TYPESIG_EMPTY : TypeSig := []

/-- Modelled from the spec: setType records the derived type of argument
`argno` in the signature (padding unset slots with the null type). -/
def setType (sig : TypeSig) (t : Ty) (argno : Nat) : TypeSig :=
  (sig ++ List.replicate (argno + 1 - sig.length) TYPE_NULL_PTR).set argno t

/-- One instrumentation action (the e9tool Action struct; that name is
already taken by Mathlib), restricted to the fields this translation unit
reads. -/
structure ActionSpec where
  kind : ActionKind
  call : CallKind
  clean : Bool
  args : List Argument
  symbol : String

/-- One token of the output metadata stream.  Literal bytes, labels and
relocation records are printed directly by e9metadata.cpp; the remaining
constructors stand for the byte sequences produced by the emission
primitives defined in other files of the repository, modelled from the spec
with their semantic payload (source/destination register indices, stack
offsets, immediate payloads, pc-relative targets). -/
inductive Tok where
  | byte (b : Nat)
  | int8 (v : Int)
  | int16 (v : Int)
  | int32 (v : Int)
  | int64 (v : Int)
  | rel8 (l : String)
  | rel32 (v : Int)
  | rel32l (l : String)
  | label (l : String)
  | strlit (s : String)
  | sext32 (pay : Nat) (dst : Int)
  | zext32 (pay : Nat) (dst : Int)
  | movI64 (pay : Nat) (dst : Int)
  | movRR (src dst : Int)
  | movRS (src : Int) (off : Int)
  | movSR (off : Int) (dst : Int) (w : Nat)
  | movRRw (src dst : Int) (w : Nat) (high : Bool)
  | movRAX16 (dst : Int)
  | leaS (off : Int) (dst : Int)
  | leaPCl (l : String) (dst : Int)
  | leaPCv (v : Int) (dst : Int)
  | movPC (v : Int) (dst : Int)
  | push (r : Register)
  | pop (r : Register)
deriving DecidableEq

/-- Output accumulated by an emission routine: the tokens written to the
stream and the diagnostics (warnings) printed along the way. -/
structure Out where
  toks : List Tok
  warns : List String
deriving DecidableEq

def Out.empty : Out := ⟨[], []⟩

instance : Append Out := ⟨fun a b => ⟨a.toks ++ b.toks, a.warns ++ b.warns⟩⟩

/-- Tokens only, no warnings. -/
def outT (ts : List Tok) : Out := ⟨ts, []⟩

/-- A single warning together with the zero substitution it accompanies. -/
def warnZero (msg : String) (regno : Int) : Out :=
  ⟨[Tok.sext32 0 regno], [msg]⟩

theorem Out.append_def (a b : Out) :
    a ++ b = ⟨a.toks ++ b.toks, a.warns ++ b.warns⟩ := rfl

/-- Modelled from the spec: machine state over which the emitted value-loading
instructions are interpreted.  Registers are indexed by e9tool register index
and hold signed 64-bit values; `stack` is the redzone spill area addressed by
byte offset from the adjusted stack pointer; `labels` resolves the synthetic
labels (.Lcontinue, .Linstruction, ...) to the addresses the downstream
patcher assigns them; `mem` is program memory for pc-relative data loads. -/
structure Machine where
  regs : Int → Int
  stack : Int → Int
  labels : String → Int
  mem : Int → Int

def Machine.setReg (m : Machine) (i : Int) (v : Int) : Machine :=
  { m with regs := fun j => if j = i then v else m.regs j }

/-- Truncation applied by a load of the given width (zero-extension into a
64-bit register for widths 1, 2 and 4; full value for width 8). -/
def truncW (w : Nat) (v : Int) : Int :=
  match w with
  | 1 => v % 256
  | 2 => v % 65536
  | 4 => v % 4294967296
  | _ => v

/-- Modelled from the spec: one step of the token interpreter.  Only the
value-loading tokens move machine state; raw opcode bytes, labels and
relocation records are position markers resolved by the downstream patcher
and leave the interpreted state unchanged (their control-flow effect is out
of scope of this model). -/
def execTok (m : Machine) (t : Tok) : Machine :=
  match t with
  | .sext32 pay dst => m.setReg dst (sint32 pay)
  | .zext32 pay dst => m.setReg dst (pay : Int)
  | .movI64 pay dst => m.setReg dst (sint64 pay)
  | .movRR src dst => m.setReg dst (m.regs src)
  | .movRS src off =>
      { m with stack := fun i => if i = off then m.regs src else m.stack i }
  | .movSR off dst w => m.setReg dst (truncW w (m.stack off))
  | .movRRw src dst w high =>
      m.setReg dst (if high then (m.regs src % 65536) / 256
                    else truncW w (m.regs src))
  | .movRAX16 dst => m.setReg dst (truncW 2 (m.regs RAX_IDX))
  | .leaS off dst => m.setReg dst (m.regs RSP_IDX + off)
  | .leaPCl l dst => m.setReg dst (m.labels l)
  | .leaPCv v dst => m.setReg dst v
  | .movPC v dst => m.setReg dst (m.mem v)
  | _ => m

def execToks (ts : List Tok) (m : Machine) : Machine := ts.foldl execTok m

/-- Modelled from the spec: per-build register state tracker (CallInfo).
`clobberedRegs` and `usedRegs` hold canonical 64-bit registers;
`pushedRegs` is the stack of registers saved by synthetic pushes, most
recent first; `rsp_offset` is the accumulated downward stack adjustment
(the 0x4000 redzone skip plus 8 bytes per push). -/
structure CallInfo where
  clobberedRegs : List Register
  usedRegs : List Register
  pushedRegs : List Register
  rsp_offset : Int
  before : Bool
  clean : Bool
deriving DecidableEq

def CallInfo.isClobbered (info : CallInfo) (r : Register) : Bool :=
  decide (getCanonicalReg r ∈ info.clobberedRegs)

def CallInfo.isUsed (info : CallInfo) (r : Register) : Bool :=
  decide (getCanonicalReg r ∈ info.usedRegs)

def CallInfo.isSaved (info : CallInfo) (r : Register) : Bool :=
  decide (getCanonicalReg r ∈ info.pushedRegs)

def CallInfo.clobber (info : CallInfo) (r : Register) : CallInfo :=
  match getCanonicalReg r with
  | .none | .invalid => info
  | c => { info with clobberedRegs := c :: info.clobberedRegs }

def CallInfo.use (info : CallInfo) (r : Register) : CallInfo :=
  match getCanonicalReg r with
  | .none | .invalid => info
  | c => { info with usedRegs := c :: info.usedRegs }

def CallInfo.restore (info : CallInfo) (r : Register) : CallInfo :=
  { info with
    clobberedRegs := info.clobberedRegs.filter (fun x => x ≠ getCanonicalReg r) }

/-- Byte offset, from the adjusted stack pointer, of the saved slot of a
register in the push stack (most recent push at offset 0). -/
def offsetIn : List Register → Register → Int
  | [], _ => 0
  | x :: rest, r => if x = r then 0 else 8 + offsetIn rest r

def CallInfo.getOffset (info : CallInfo) (r : Register) : Int :=
  offsetIn info.pushedRegs (getCanonicalReg r)

def CallInfo.push (info : CallInfo) (r : Register) : CallInfo :=
  { info with pushedRegs := getCanonicalReg r :: info.pushedRegs,
              rsp_offset := info.rsp_offset + 8 }

def CallInfo.pop (info : CallInfo) : Register × CallInfo :=
  match info.pushedRegs with
  | [] => (Register.invalid, info)
  | r :: rest =>
      (r, { info with pushedRegs := rest, rsp_offset := info.rsp_offset - 8 })

/-- System V AMD64 caller-save (call-clobbered) registers. -/
def callerSaveRegs : List Register :=
  [Register.rax, Register.rcx, Register.rdx, Register.rsi, Register.rdi,
   Register.r8, Register.r9, Register.r10, Register.r11, Register.rflags]

def CallInfo.isCallerSave (_info : CallInfo) (r : Register) : Bool :=
  decide (getCanonicalReg r ∈ callerSaveRegs)

/-- Candidate order in which getScratch searches for a reusable register. -/
def scratchCandidates : List Register :=
  [Register.rdi, Register.rsi, Register.rdx, Register.rcx, Register.r8,
   Register.r9, Register.rax, Register.r10, Register.r11, Register.rbx,
   Register.rbp, Register.r12, Register.r13, Register.r14, Register.r15]

/-- Modelled from the spec: getScratch returns an architecturally free
register (already clobbered, hence dead, and not holding a value recorded as
used) outside the exclusion list, or REGISTER_INVALID when none exists. -/
def CallInfo.getScratch (info : CallInfo) (exclude : List Register) : Register :=
  match scratchCandidates.find? (fun r =>
      info.isClobbered r && !info.isUsed r &&
      !(decide (getCanonicalReg r ∈ exclude.map getCanonicalReg))) with
  | some r => r
  | Option.none => Register.invalid

/-- Modelled from the spec: the post-call state update (CallInfo::call); the
callee is free to destroy all caller-save registers. -/
def CallInfo.call (info : CallInfo) (_conditional : Bool) : CallInfo :=
  { info with clobberedRegs := callerSaveRegs ++ info.clobberedRegs }

/-- Modelled from the spec: the CallInfo constructor.  The trampoline
prologue (emitted by the caller of this translation unit) skips the 0x4000
redzone and pushes the registers that must survive the call: the flags
(when the state is captured or a clean call is requested), all caller-save
registers, and for a clean call the callee-save registers as well. -/
def CallInfo.init (clean state _conditional : Bool) (_numArgs : Nat)
    (before : Bool) : CallInfo :=
  let pushed :=
    (if state || clean then [Register.rflags] else []) ++
    [Register.rax, Register.rcx, Register.rdx, Register.rsi, Register.rdi,
     Register.r8, Register.r9, Register.r10, Register.r11] ++
    (if clean then
      [Register.rbx, Register.rbp, Register.r12, Register.r13,
       Register.r14, Register.r15] else [])
  { clobberedRegs := []
    usedRegs := []
    pushedRegs := pushed
    rsp_offset := 0x4000 + 8 * pushed.length
    before := before
    clean := clean }

/-- External collaborators of this translation unit (ELF symbol resolution,
the CSV match/lookup evaluator, the random generator), modelled from the
spec as read-only query services. -/
structure Env where
  lookupValue : String → Int → Option Int
  getELFObject : String → Int
  getELFGOTEntry : String → Int
  lookupSymbol : String → TypeSig → Int
  rand : Int

/-- Modelled from the spec: sendSExtFromI32ToR64 emits a mov that
sign-extends its imm32 payload (the low 32 bits of value) into the
destination register. -/
def sendSExtFromI32ToR64 (v : Int) (dst : Int) : Tok := Tok.sext32 (toU32 v) dst

/-- Modelled from the spec: sendZExtFromI32ToR64 emits a mov that
zero-extends its imm32 payload into the destination register. -/
def sendZExtFromI32ToR64 (v : Int) (dst : Int) : Tok := Tok.zext32 (toU32 v) dst

/-- Modelled from the spec: sendMovFromI64ToR64 emits a full movabs of the
64-bit payload into the destination register. -/
def sendMovFromI64ToR64 (v : Int) (dst : Int) : Tok := Tok.movI64 (toU64 v) dst

/-- Modelled from the spec: register-to-register 64-bit mov. -/
def sendMovFromR64ToR64 (src dst : Int) : Tok := Tok.movRR src dst

/-- Modelled from the spec: store of a 64-bit register to a stack slot. -/
def sendMovFromR64ToStack (src : Int) (off : Int) : Tok := Tok.movRS src off

/-- Modelled from the spec: 64-bit load of a stack slot into a register. -/
def sendMovFromStackToR64 (off : Int) (dst : Int) : Tok := Tok.movSR off dst 8

def sendMovFromStack32ToR64 (off : Int) (dst : Int) : Tok := Tok.movSR off dst 4

def sendMovFromStack16ToR64 (off : Int) (dst : Int) : Tok := Tok.movSR off dst 2

def sendMovFromStack8ToR64 (off : Int) (dst : Int) : Tok := Tok.movSR off dst 1

def sendMovFromR32ToR64 (src dst : Int) : Tok := Tok.movRRw src dst 4 false

def sendMovFromR16ToR64 (src dst : Int) : Tok := Tok.movRRw src dst 2 false

def sendMovFromR8ToR64 (src : Int) (high : Bool) (dst : Int) : Tok :=
  Tok.movRRw src dst 1 high

def sendMovFromRAX16ToR64 (dst : Int) : Tok := Tok.movRAX16 dst

def sendLeaFromStackToR64 (off : Int) (dst : Int) : Tok := Tok.leaS off dst

/-- Modelled from the spec: pc-relative lea whose relocation references a
named label. -/
def sendLeaFromPCRelToR64Label (l : String) (dst : Int) : Tok := Tok.leaPCl l dst

/-- Modelled from the spec: pc-relative lea whose relocation encodes the
given absolute target (the overload of sendLeaFromPCRelToR64 taking an
address). -/
def sendLeaFromPCRelToR64 (v : Int) (dst : Int) : Tok := Tok.leaPCv v dst

/-- Modelled from the spec: pc-relative 64-bit load (used for GOT entries). -/
def sendMovFromPCRelToR64 (v : Int) (dst : Int) : Tok := Tok.movPC v dst

/-- Modelled from the spec: sendPush saves a register below the redzone;
returns (push succeeded, scratch register was clobbered).  Pushing the flags
register needs the scratch register for a seto/lahf sequence. -/
def sendPush (_rspOff : Int) (_before : Bool) (reg : Register)
    (rscratch : Register) : Bool × Bool × List Tok :=
  (true, reg = Register.rflags && rscratch ≠ Register.invalid, [Tok.push reg])

/-- Modelled from the spec: sendPop restores a pushed register; returns
whether the scratch register was clobbered (only when %rax must be
preserved across its own pop). -/
def sendPop (preserveRAX : Bool) (reg : Register) (rscratch : Register) :
    Bool × List Tok :=
  (preserveRAX && reg = Register.rax && rscratch ≠ Register.invalid,
   [Tok.pop reg])

/-- Embedding of getOperandType (e9metadata.cpp lines 37-109): the C-level
type of an operand or of one of its sub-fields. -/
def getOperandType (_I : InstrInfo) (op : Option OpInfo) (ptr : Bool)
    (field : FieldKind) : Ty :=
  match op with
  | Option.none => TYPE_NULL_PTR
  | some op =>
    match field with
    | .access => TYPE_INT8
    | .type => TYPE_INT8
    | .size => TYPE_INT64
    | .displ => if op.type = OpType.mem then TYPE_INT32 else TYPE_NULL_PTR
    | .base =>
        let t := if op.type = OpType.mem then getRegType op.mem.base
                 else TYPE_NULL_PTR
        if ptr ∧ t ≠ TYPE_NULL_PTR then t.addPtr else t
    | .index =>
        let t := if op.type = OpType.mem then getRegType op.mem.index
                 else TYPE_NULL_PTR
        if ptr ∧ t ≠ TYPE_NULL_PTR then t.addPtr else t
    | .scale => if op.type = OpType.mem then TYPE_INT8 else TYPE_NULL_PTR
    | .none =>
        let t :=
          match op.type with
          | .reg =>
              let t0 := getRegType op.reg
              if ptr ∧ t0 = TYPE_INT32 then TYPE_INT64 else t0
          | .mem =>
              if op.size = 1 then TYPE_INT8
              else if op.size = 2 then TYPE_INT16
              else if op.size = 4 then TYPE_INT32
              else if op.size = 8 then TYPE_INT64
              else if ptr then TYPE_INT8 else TYPE_NULL_PTR
          | .imm =>
              let t0 :=
                if op.size = 1 then TYPE_INT8
                else if op.size = 2 then TYPE_INT16
                else if op.size = 4 then TYPE_INT32
                else if op.size = 8 then TYPE_INT64
                else if ptr then TYPE_INT8 else TYPE_NULL_PTR
              if ptr then t0.addConst else t0
          | .invalid => TYPE_NULL_PTR
        if op.type = OpType.invalid then t
        else if ptr ∧ t ≠ TYPE_NULL_PTR then t.addPtr else t

/-- Embedding of sendLoadValueMetadata (lines 115-123): load an integer
constant with the narrowest of the three encodings. -/
def sendLoadValueMetadata (value : Int) (argno : Int) : List Tok :=
  if INT32_MIN ≤ value ∧ value ≤ INT32_MAX then
    [sendSExtFromI32ToR64 value argno]
  else if 0 ≤ value ∧ value ≤ UINT32_MAX then
    [sendZExtFromI32ToR64 value argno]
  else
    [sendMovFromI64ToR64 value argno]

/-- Embedding of sendTemporaryMovReg (lines 130-152): move the current value
of a register to a scratch register or a redzone stack slot; returns the
scratch descriptor, the updated tracker, the updated slot counter and the
emitted tokens. -/
def sendTemporaryMovReg (info : CallInfo) (reg : Register)
    (exclude : List Register) (slot : Int) :
    Int × CallInfo × Int × List Tok :=
  let regno := getRegIdx reg
  let rscratch := info.getScratch exclude
  if rscratch ≠ Register.invalid then
    let scratch := getRegIdx rscratch
    (scratch, info.clobber rscratch, slot,
     [sendMovFromR64ToR64 regno scratch])
  else
    let slot1 := slot - 1
    (slot1, info, slot1, [sendMovFromR64ToStack regno (8 * slot1)])

/-- Embedding of sendTemporarySaveReg (lines 157-163): save a register so it
can be reused; an already clobbered register needs no save and yields the
INT32_MAX sentinel. -/
def sendTemporarySaveReg (info : CallInfo) (reg : Register)
    (exclude : List Register) (slot : Int) :
    Int × CallInfo × Int × List Tok :=
  if info.isClobbered reg then (INT32_MAX, info, slot, [])
  else sendTemporaryMovReg info reg exclude slot

/-- Embedding of sendTemporaryRestoreReg (lines 168-184): bring a clobbered
register back to its original (stack-saved) value, first protecting the
current value when it is still needed. -/
def sendTemporaryRestoreReg (info : CallInfo) (reg : Register)
    (exclude : List Register) (slot : Int) :
    Int × CallInfo × Int × List Tok :=
  if !info.isClobbered reg then (INT32_MAX, info, slot, [])
  else if !info.isUsed reg then
    (INT32_MAX, info.restore reg, slot,
     [sendMovFromStackToR64 (info.getOffset reg) (getRegIdx reg)])
  else
    let (scratch, info1, slot1, toks) := sendTemporaryMovReg info reg exclude slot
    (scratch, info1, slot1,
     toks ++ [sendMovFromStackToR64 (info1.getOffset reg) (getRegIdx reg)])

/-- Embedding of sendUndoTemporaryMovReg (lines 189-205): undo a temporary
move; a sentinel scratch descriptor (> RMAX_IDX) means nothing was saved and
nothing is emitted. -/
def sendUndoTemporaryMovReg (reg : Register) (scratch : Int) : List Tok :=
  if scratch > RMAX_IDX then []
  else
    let regno := getRegIdx reg
    if scratch ≥ 0 then [sendMovFromR64ToR64 scratch regno]
    else [sendMovFromStackToR64 (8 * scratch) regno]

/-- Embedding of sendSaveRegToStack (lines 210-225): ensure a register is
saved on the stack. -/
def sendSaveRegToStack (info : CallInfo) (reg : Register) :
    Bool × CallInfo × Out :=
  if info.isSaved reg then (true, info, Out.empty)
  else
    let rscratch := if info.isClobbered Register.rax then Register.rax
                    else info.getScratch []
    match sendPush info.rsp_offset info.before reg rscratch with
    | (pushed, clobbersScratch, toks) =>
      if pushed then
        (true,
         (if clobbersScratch then (info.push reg).clobber rscratch
          else info.push reg),
         outT toks)
      else (false, info, outT toks)

/-- REX.B table indexed by register index (B[] in the source). -/
def Btab : List Nat := [0, 0, 0, 0, 1, 1, 0, 0, 1, 1, 0, 0, 1, 1, 1, 1, 0]

/-- REX.X table indexed by register index (X[] in the source). -/
def Xtab : List Nat := [0, 0, 0, 0, 2, 2, 0, 0, 2, 2, 0, 0, 2, 2, 2, 2, 0]

/-- REX.R table indexed by register index (R[] in the source). -/
def Rtab : List Nat := [0, 0, 0, 0, 4, 4, 0, 0, 4, 4, 0, 0, 4, 4, 4, 4, 0]

/-- ModRM/SIB 3-bit register numbers indexed by register index (REG[] in the
source). -/
def REGtab : List Nat := [7, 6, 2, 1, 0, 1, 0, 0, 2, 3, 3, 5, 4, 5, 6, 7, 4]

/-- The 32-bit registers that force the 0x67 address-size prefix as a base
register (the first switch over base_reg, which includes %eip). -/
def is32BitBase (r : Register) : Bool :=
  match r with
  | .eax | .ecx | .edx | .ebx | .esp | .ebp | .esi | .edi
  | .r8d | .r9d | .r10d | .r11d | .r12d | .r13d | .r14d | .r15d | .eip => true
  | _ => false

/-- The 32-bit registers that force the 0x67 address-size prefix as an index
register (the second switch, which does not include %eip). -/
def is32BitIndex (r : Register) : Bool :=
  match r with
  | .eax | .ecx | .edx | .ebx | .esp | .ebp | .esi | .edi
  | .r8d | .r9d | .r10d | .r11d | .r12d | .r13d | .r14d | .r15d => true
  | _ => false

/-- Embedding of sendLoadFromMemOpToR64 (lines 230-446): the general x86-64
encoder for a mov/movsx/lea from a memory operand into a 64-bit register.
The displacement parameter has C type int32_t, so every update of it is
wrapped to 32 bits (`wrap32`), exactly as the compiled code behaves. -/
def sendLoadFromMemOpToR64 (I : InstrInfo) (info : CallInfo) (size : Nat)
    (segReg : Register) (disp0 : Int) (baseReg indexReg : Register)
    (scale : Nat) (lea : Bool) (regno : Int) : Bool × CallInfo × Out :=
  if lea ∧ (segReg = Register.fs ∨ segReg = Register.gs) then
    (false, info, warnZero "cannot lea with fs or gs segment" regno)
  else
    let segPfx : Nat :=
      if segReg = Register.fs then 0x64
      else if segReg = Register.gs then 0x65 else 0
    let sizePfx : Nat :=
      if is32BitBase baseReg || is32BitIndex indexReg then 0x67 else 0
    let b : Nat :=
      if baseReg = Register.none ∨ baseReg = Register.rip ∨
         baseReg = Register.eip then 0
      else Btab.getD (getRegIdx baseReg).toNat 0
    let x : Nat :=
      if indexReg = Register.none then 0
      else Xtab.getD (getRegIdx indexReg).toNat 0
    let r : Nat := Rtab.getD regno.toNat 0
    let rex : Nat := 0x48 ||| r ||| x ||| b
    let dispA : Int :=
      if baseReg = Register.rsp ∨ baseReg = Register.esp then
        wrap32 (wrap32 disp0 + info.rsp_offset)
      else wrap32 disp0
    let enc :
        Nat × Nat × Int × Nat × Nat × Bool × Bool :=
      if baseReg = Register.rip ∨ baseReg = Register.eip then
        (0, 5, wrap32 (dispA + I.address + (I.size : Int)), 4, 0, false, true)
      else
        let needSib :=
          indexReg ≠ Register.none ∨
          baseReg = Register.rsp ∨ baseReg = Register.esp ∨
          baseReg = Register.r12 ∨ baseReg = Register.r12d ∨
          baseReg = Register.none
        let ss : Nat :=
          if scale = 2 then 1 else if scale = 4 then 2
          else if scale = 8 then 3 else 0
        let sibBase : Nat :=
          if baseReg = Register.none then 5
          else REGtab.getD (getRegIdx baseReg).toNat 0
        let sibIndex : Nat :=
          if indexReg = Register.none then 4
          else REGtab.getD (getRegIdx indexReg).toNat 0
        let sib : Nat := ss * 64 + sibIndex * 8 + sibBase
        let rm : Nat :=
          if needSib then 4 else REGtab.getD (getRegIdx baseReg).toNat 0
        if baseReg = Register.none then
          (0, rm, dispA, 4, sib, needSib, false)
        else if dispA = 0 ∧ baseReg ≠ Register.rbp ∧ baseReg ≠ Register.ebp ∧
                baseReg ≠ Register.r13 ∧ baseReg ≠ Register.r13d then
          (0, rm, dispA, 0, sib, needSib, false)
        else if INT8_MIN ≤ dispA ∧ dispA ≤ INT8_MAX then
          (1, rm, dispA, 1, sib, needSib, false)
        else
          (2, rm, dispA, 4, sib, needSib, false)
    match enc with
    | (mod, rm, disp, dispSize, sib, haveSib, haveRel32) =>
      if disp < INT32_MIN ∨ disp > INT32_MAX then
        (false, info, warnZero "adjusted displacement is out-of-bounds" regno)
      else
        let reg : Nat := REGtab.getD regno.toNat 0
        let modrm : Nat := mod * 64 + reg * 8 + rm
        let exclude : List Register :=
          [getReg regno] ++
          (if baseReg ≠ Register.none then [getCanonicalReg baseReg] else []) ++
          [getCanonicalReg indexReg]
        match sendTemporaryRestoreReg info baseReg exclude 0 with
        | (scratch1, info1, slot1, toksR1) =>
          match (if indexReg ≠ baseReg then
                   sendTemporaryRestoreReg info1 indexReg exclude slot1
                 else (INT32_MAX, info1, slot1, [])) with
          | (scratch2, info2, _slot2, toksR2) =>
            let pfxToks : List Tok :=
              (if segPfx ≠ 0 then [Tok.byte segPfx] else []) ++
              (if sizePfx ≠ 0 then [Tok.byte sizePfx] else []) ++
              [Tok.byte rex]
            let opc : Option (List Tok) :=
              if lea then some [Tok.byte 0x8d]
              else if size = 8 then some [Tok.byte 0x8b]
              else if size = 4 then some [Tok.byte 0x63]
              else if size = 2 then some [Tok.byte 0x0f, Tok.byte 0xbf]
              else if size = 1 then some [Tok.byte 0x0f, Tok.byte 0xbe]
              else Option.none
            match opc with
            | Option.none =>
                (false, info2,
                 ⟨toksR1 ++ toksR2 ++ pfxToks ++ [sendSExtFromI32ToR64 0 regno],
                  ["operand size is too big"]⟩)
            | some opcToks =>
                let dispToks : List Tok :=
                  if haveRel32 then [Tok.rel32 disp]
                  else if dispSize = 1 then [Tok.int8 disp]
                  else if dispSize = 4 then [Tok.int32 disp]
                  else []
                (true, info2,
                 outT (toksR1 ++ toksR2 ++ pfxToks ++ opcToks ++
                       [Tok.byte modrm] ++
                       (if haveSib then [Tok.byte sib] else []) ++ dispToks ++
                       sendUndoTemporaryMovReg baseReg scratch1 ++
                       sendUndoTemporaryMovReg indexReg scratch2))

/-- Embedding of the first sendLoadRegToArg overload (lines 451-494): load a
register value (live or spilled) into an argument register, by width. -/
def sendLoadRegToArgValue (reg : Register) (info : CallInfo) (argno : Int) :
    List Tok :=
  let size := getRegSize reg
  if info.isClobbered reg then
    if size = 4 then [sendMovFromStack32ToR64 (info.getOffset reg) argno]
    else if size = 2 then [sendMovFromStack16ToR64 (info.getOffset reg) argno]
    else if size = 1 then
      [sendMovFromStack8ToR64
        (info.getOffset reg + (if getRegHigh reg then 1 else 0)) argno]
    else [sendMovFromStackToR64 (info.getOffset reg) argno]
  else
    if size = 4 then [sendMovFromR32ToR64 (getRegIdx reg) argno]
    else if size = 2 then [sendMovFromR16ToR64 (getRegIdx reg) argno]
    else if size = 1 then
      [sendMovFromR8ToR64 (getRegIdx reg) (getRegHigh reg) argno]
    else [sendMovFromR64ToR64 (getRegIdx reg) argno]

/-- Embedding of the second sendLoadRegToArg overload (lines 499-531): load a
register by value or by reference (spill + lea). -/
def sendLoadRegToArg (_I : InstrInfo) (reg : Register) (ptr : Bool)
    (info : CallInfo) (argno : Int) : Bool × CallInfo × Out :=
  if ptr then
    match sendSaveRegToStack info reg with
    | (saved, info1, o) =>
      if !saved then
        (false, info1,
         o ++ warnZero "failed to save register to stack" argno)
      else
        (true, info1,
         o ++ outT [sendLeaFromStackToR64
           (info1.getOffset reg + (if getRegHigh reg then 1 else 0)) argno])
  else
    if getRegIdx reg < 0 then
      (false, info, warnZero "cannot move register into argument" argno)
    else
      (true, info, outT (sendLoadRegToArgValue reg info argno))

/-- Modelled from the spec: getOperand (declared in e9metadata.cpp, defined
elsewhere in the repository) selects the idx-th operand matching the
requested operand class and access filter; the combined read-write filter
accepts every operand, so that pure addressing-mode operands (access 0)
remain selectable.  Returns nothing when the index is out of range. -/
def getOperand (I : InstrInfo) (idx : Int) (ty : OpType) (access : Access) :
    Option OpInfo :=
  let cand := I.ops.filter (fun op =>
    (ty = OpType.invalid ∨ op.type = ty) ∧
    (access = (ACCESS_READ ||| ACCESS_WRITE) ∨ op.access &&& access ≠ 0))
  if idx < 0 then Option.none else cand.get? idx.toNat

/-- Embedding of sendLoadOperandMetadata (lines 537-671): load an operand, or
one of its sub-fields, into the argno register.  The fatal error branches
(unknown field, unknown operand type) become Except.error. -/
def sendLoadOperandMetadata (I : InstrInfo) (op : OpInfo) (ptr : Bool)
    (field : FieldKind) (info : CallInfo) (argno : Int) :
    Except String (Bool × CallInfo × Out) :=
  match field with
  | .displ =>
      if op.type ≠ OpType.mem then
        .ok (false, info,
             warnZero "cannot load displacement of non-memory operand" argno)
      else .ok (true, info, outT (sendLoadValueMetadata op.mem.disp argno))
  | .base =>
      if op.type ≠ OpType.mem then
        .ok (false, info,
             warnZero "cannot load base of non-memory operand" argno)
      else if op.mem.base = Register.none then
        .ok (false, info,
             warnZero "operand does not use a base register" argno)
      else .ok (sendLoadRegToArg I op.mem.base ptr info argno)
  | .index =>
      if op.type ≠ OpType.mem then
        .ok (false, info,
             warnZero "cannot load index of non-memory operand" argno)
      else if op.mem.index = Register.none then
        .ok (false, info,
             warnZero "operand does not use an index register" argno)
      else .ok (sendLoadRegToArg I op.mem.index ptr info argno)
  | .scale =>
      if op.type ≠ OpType.mem then
        .ok (false, info,
             warnZero "cannot load scale of non-memory operand" argno)
      else .ok (true, info, outT (sendLoadValueMetadata op.mem.scale argno))
  | .size => .ok (true, info, outT (sendLoadValueMetadata op.size argno))
  | .type =>
      match op.type with
      | .imm => .ok (true, info, outT (sendLoadValueMetadata 0x1 argno))
      | .reg => .ok (true, info, outT (sendLoadValueMetadata 0x2 argno))
      | .mem => .ok (true, info, outT (sendLoadValueMetadata 0x3 argno))
      | .invalid =>
          .ok (false, info, warnZero "unknown operand type" argno)
  | .access =>
      if op.type = OpType.imm then
        .ok (true, info, outT (sendLoadValueMetadata PROT_READ argno))
      else
        .ok (true, info,
             outT (sendLoadValueMetadata ((op.access ||| 0x80 : Nat) : Int)
               argno))
  | .none =>
      match op.type with
      | .reg => .ok (sendLoadRegToArg I op.reg ptr info argno)
      | .mem =>
          .ok (sendLoadFromMemOpToR64 I info op.size op.mem.seg op.mem.disp
                 op.mem.base op.mem.index op.mem.scale ptr argno)
      | .imm =>
          if !ptr then
            .ok (true, info, outT (sendLoadValueMetadata op.imm argno))
          else
            .ok (true, info,
                 outT [sendLeaFromPCRelToR64Label
                   (".Limmediate_" ++ toString argno) argno])
      | .invalid => .error ("unknown operand type")

/-- Embedding of sendOperandDataMetadata (lines 676-708): trailing data for
an immediate operand passed by pointer. -/
def sendOperandDataMetadata (op : Option OpInfo) (argno : Int) : List Tok :=
  match op with
  | Option.none => []
  | some op =>
    match op.type with
    | .imm =>
        [Tok.label (".Limmediate_" ++ toString argno)] ++
        (if op.size = 1 then [Tok.int8 op.imm]
         else if op.size = 2 then [Tok.int16 op.imm]
         else if op.size = 4 then [Tok.int32 op.imm]
         else [Tok.int64 op.imm])
    | _ => []

/-- The jump/call/return mnemonics whose single operand is a control-flow
target (the case list of the first switch in sendLoadTargetMetadata). -/
def isTargetMnemonic (m : Mnemonic) : Bool :=
  match m with
  | .call | .jmp
  | .jo | .jno | .jb | .jae | .je | .jne | .jbe | .ja
  | .js | .jns | .jp | .jnp | .jl | .jge | .jle | .jg
  | .jcxz | .jecxz | .jrcxz => true
  | _ => false

/-- Embedding of sendLoadTargetMetadata (lines 715-776): load the
jump/call/return target into the argno register, or 0 for a non-control-flow
instruction. -/
def sendLoadTargetMetadata (I : InstrInfo) (info : CallInfo) (argno : Int) :
    CallInfo × Out :=
  match I.mnemonic with
  | .ret => (info, outT [sendMovFromStackToR64 info.rsp_offset argno])
  | m =>
    if isTargetMnemonic m ∧ I.ops.length = 1 then
      match I.ops with
      | op :: _ =>
        match op.type with
        | .reg =>
            if info.isClobbered op.reg then
              (info,
               outT [sendMovFromStackToR64 (info.getOffset op.reg) argno])
            else
              (info, outT [sendMovFromR64ToR64 (getRegIdx op.reg) argno])
        | .mem =>
            match sendLoadFromMemOpToR64 I info op.size op.mem.seg op.mem.disp
                    op.mem.base op.mem.index op.mem.scale false argno with
            | (_, info1, o) => (info1, o)
        | .imm =>
            (info,
             outT [sendLeaFromPCRelToR64 (I.address + (I.size : Int) + op.imm)
                     argno])
        | .invalid => (info, outT [sendSExtFromI32ToR64 0 argno])
      | [] => (info, outT [sendSExtFromI32ToR64 0 argno])
    else (info, outT [sendSExtFromI32ToR64 0 argno])

/-- Opcode byte (short-jump form) of each condition-code jump, per the
switch in sendLoadNextMetadata; mnemonics outside the sixteen jcc forms give
nothing. -/
def jccOpcode (m : Mnemonic) : Option Nat :=
  match m with
  | .jo => some 0x70
  | .jno => some 0x71
  | .jb => some 0x72
  | .jae => some 0x73
  | .je => some 0x74
  | .jne => some 0x75
  | .jbe => some 0x76
  | .ja => some 0x77
  | .js => some 0x78
  | .jns => some 0x79
  | .jp => some 0x7a
  | .jnp => some 0x7b
  | .jl => some 0x7c
  | .jge => some 0x7d
  | .jle => some 0x7e
  | .jg => some 0x7f
  | _ => Option.none

/-- Suffix (register name without the percent sign) used to build the
per-register .Ltaken / .Lnext labels. -/
def regLabelSuffix (argno : Int) : String :=
  (getRegName (getReg argno)).drop 1

/-- Embedding of sendLoadNextMetadata (lines 782-884): load the address of
the next instruction the CPU will execute.  ret/call/jmp delegate to
sendLoadTargetMetadata; the sixteen jcc forms emit a three-way branch;
jecxz/jrcxz do the same with %rcx temporarily restored around the test; every
other mnemonic (including jcxz) loads the static .Lcontinue address. -/
def sendLoadNextMetadata (I : InstrInfo) (info : CallInfo) (argno : Int) :
    CallInfo × Out :=
  let rn := regLabelSuffix argno
  match I.mnemonic with
  | .ret | .call | .jmp => sendLoadTargetMetadata I info argno
  | .jecxz | .jrcxz =>
      let exclude := [getReg argno]
      match sendTemporaryRestoreReg info Register.rcx exclude 0 with
      | (scratch, info1, _slot, toksR) =>
        match sendLoadTargetMetadata I info1 argno with
        | (info2, oT) =>
          (info2,
           outT toksR ++
           outT ((if I.mnemonic = Mnemonic.jecxz then [Tok.byte 0x67]
                  else []) ++
                 [Tok.byte 0xe3, Tok.rel8 (".Ltaken" ++ rn),
                  sendLeaFromPCRelToR64Label (".Lcontinue") argno,
                  Tok.byte 0xeb, Tok.rel8 (".Lnext" ++ rn),
                  Tok.label (".Ltaken" ++ rn)]) ++
           oT ++
           outT ([Tok.label (".Lnext" ++ rn)] ++
                 sendUndoTemporaryMovReg Register.rcx scratch))
  | m =>
    match jccOpcode m with
    | some opc =>
        match sendLoadTargetMetadata I info argno with
        | (info1, oT) =>
          (info1,
           outT [Tok.byte opc, Tok.rel8 (".Ltaken" ++ rn),
                 sendLeaFromPCRelToR64Label (".Lcontinue") argno,
                 Tok.byte 0xeb, Tok.rel8 (".Lnext" ++ rn),
                 Tok.label (".Ltaken" ++ rn)] ++
           oT ++
           outT [Tok.label (".Lnext" ++ rn)])
    | Option.none =>
        (info, outT [sendLeaFromPCRelToR64Label (".Lcontinue") argno])

/-- The access filter that the operand-family argument kinds request
(ACCESS_READ for src, ACCESS_WRITE for dst, both otherwise). -/
def argAccessFilter (k : ArgumentKind) : Access :=
  if k = ArgumentKind.src then ACCESS_READ
  else if k = ArgumentKind.dst then ACCESS_WRITE
  else ACCESS_READ ||| ACCESS_WRITE

/-- The operand-class filter that the operand-family argument kinds request. -/
def argOpTypeFilter (k : ArgumentKind) : OpType :=
  if k = ArgumentKind.imm then OpType.imm
  else if k = ArgumentKind.reg then OpType.reg
  else if k = ArgumentKind.mem then OpType.mem
  else OpType.invalid

/-- The per-kind dispatch body of sendLoadArgumentMetadata (the big switch at
lines 1004-1306), producing the derived type, updated tracker and emitted
output, or a fatal error. -/
def loadArgumentCore (env : Env) (info : CallInfo) (action : ActionSpec)
    (arg : Argument) (I : InstrInfo) (id : Int) (regno : Int) :
    Except String (Ty × CallInfo × Out) :=
  match arg.kind with
  | .user =>
      match env.lookupValue arg.name arg.value with
      | Option.none => .error ("failed to lookup value from file")
      | some value =>
          .ok (TYPE_INT64, info, outT (sendLoadValueMetadata value regno))
  | .integer =>
      .ok (TYPE_INT64, info, outT (sendLoadValueMetadata arg.value regno))
  | .offset =>
      .ok (TYPE_INT64, info, outT (sendLoadValueMetadata I.offset regno))
  | .addr =>
      .ok (TYPE_CONST_VOID_PTR, info,
           outT [sendLeaFromPCRelToR64Label (".Linstruction") regno])
  | .id => .ok (TYPE_INT64, info, outT (sendLoadValueMetadata id regno))
  | .next =>
      match action.call with
      | .after =>
          .ok (TYPE_CONST_VOID_PTR, info,
               outT [sendLeaFromPCRelToR64Label (".Lcontinue") regno])
      | _ =>
          match sendLoadNextMetadata I info regno with
          | (info1, o) => .ok (TYPE_CONST_VOID_PTR, info1, o)
  | .base =>
      .ok (TYPE_CONST_VOID_PTR, info, outT [sendLeaFromPCRelToR64 0 regno])
  | .staticAddr =>
      .ok (TYPE_CONST_VOID_PTR, info,
           outT (sendLoadValueMetadata I.address regno))
  | .asm =>
      .ok (TYPE_CONST_CHAR_PTR, info,
           outT [sendLeaFromPCRelToR64Label (".LasmStr") regno])
  | .asmSize =>
      .ok (TYPE_INT64, info,
           outT (sendLoadValueMetadata ((I.instrStr.length : Int) + 1) regno))
  | .asmLen =>
      .ok (TYPE_INT64, info,
           outT (sendLoadValueMetadata (I.instrStr.length : Int) regno))
  | .bytes =>
      .ok (TYPE_CONST_INT8_PTR, info,
           outT [sendLeaFromPCRelToR64Label (".Lbytes") regno])
  | .bytesSize =>
      .ok (TYPE_INT64, info, outT (sendLoadValueMetadata (I.size : Int) regno))
  | .target =>
      match sendLoadTargetMetadata I info regno with
      | (info1, o) => .ok (TYPE_CONST_VOID_PTR, info1, o)
  | .trampoline =>
      .ok (TYPE_CONST_VOID_PTR, info,
           outT [sendLeaFromPCRelToR64Label (".Ltrampoline") regno])
  | .random =>
      .ok (TYPE_INT64, info, outT (sendLoadValueMetadata env.rand regno))
  | .register =>
      if arg.ptr then
        -- The ARGUMENT_REG_PTR label: pass the register by reference.
        match sendSaveRegToStack info arg.reg with
        | (_, info1, o) =>
          let t :=
            if getRegSize arg.reg = 8 ∨ getRegSize arg.reg = 4 then TYPE_INT64
            else if getRegSize arg.reg = 2 then TYPE_INT16
            else TYPE_INT8
          .ok (t.addPtr, info1,
               o ++ outT [sendLeaFromStackToR64 (info1.getOffset arg.reg)
                            regno])
      else
        match arg.reg with
        | .rip =>
            -- The CALL_AFTER case loads .Lcontinue and then falls through
            -- into the default case, which loads .Linstruction.
            match action.call with
            | .after =>
                .ok (TYPE_CONST_VOID_PTR, info,
                     outT [sendLeaFromPCRelToR64Label (".Lcontinue") regno,
                           sendLeaFromPCRelToR64Label (".Linstruction") regno])
            | _ =>
                .ok (TYPE_CONST_VOID_PTR, info,
                     outT [sendLeaFromPCRelToR64Label (".Linstruction") regno])
        | .spl =>
            .ok (TYPE_INT8, info,
                 outT [sendLeaFromStackToR64 info.rsp_offset regno,
                       sendMovFromR8ToR64 regno false regno])
        | .sp =>
            .ok (TYPE_INT16, info,
                 outT [sendLeaFromStackToR64 info.rsp_offset regno,
                       sendMovFromR16ToR64 regno regno])
        | .esp =>
            .ok (TYPE_INT32, info,
                 outT [sendLeaFromStackToR64 info.rsp_offset regno,
                       sendMovFromR32ToR64 regno regno])
        | .rsp =>
            .ok (TYPE_INT64, info,
                 outT [sendLeaFromStackToR64 info.rsp_offset regno])
        | .rflags =>
            if info.isSaved Register.rflags then
              .ok (TYPE_INT16, info,
                   outT [sendMovFromStack16ToR64
                           (info.getOffset Register.rflags) regno])
            else
              let exclude := [Register.rax, getReg regno]
              match sendTemporarySaveReg info Register.rax exclude 0 with
              | (scratch, info1, _slot, toksS) =>
                .ok (TYPE_INT16, info1,
                     outT (toksS ++
                           [Tok.byte 0x0f, Tok.byte 0x90, Tok.byte 0xc0,
                            Tok.byte 0x9f,
                            sendMovFromRAX16ToR64 regno] ++
                           sendUndoTemporaryMovReg Register.rax scratch))
        | r =>
            match sendLoadRegToArg I r false info regno with
            | (_, info1, o) =>
              let t :=
                if getRegSize r = 4 then TYPE_INT32
                else if getRegSize r = 2 then TYPE_INT16
                else if getRegSize r = 1 then TYPE_INT8
                else TYPE_INT64
              .ok (t, info1, o)
  | .state =>
      .ok (TYPE_VOID_PTR, info,
           outT [sendLeaFromStackToR64 (info.getOffset Register.rflags) regno])
  | .symbol =>
      let val := env.getELFObject arg.name
      if val = -1 then
        .ok (TYPE_NULL_PTR, info,
             warnZero "symbol is undefined" regno)
      else if val = INTPTR_MIN then
        let g := env.getELFGOTEntry arg.name
        if INT32_MIN ≤ g ∧ g ≤ INT32_MAX then
          .ok (TYPE_CONST_VOID_PTR, info, outT [sendMovFromPCRelToR64 g regno])
        else
          .ok (TYPE_NULL_PTR, info, warnZero "object not found" regno)
      else if INT32_MIN ≤ val ∧ val ≤ INT32_MAX then
        .ok (TYPE_CONST_VOID_PTR, info, outT [sendLeaFromPCRelToR64 val regno])
      else
        .ok (TYPE_NULL_PTR, info, warnZero "object not found" regno)
  | .memop =>
      let t0 :=
        if arg.memop.size = 8 then TYPE_INT64
        else if arg.memop.size = 4 then TYPE_INT32
        else if arg.memop.size = 2 then TYPE_INT16
        else TYPE_INT8
      let t := if arg.ptr then t0.addPtr else t0
      match sendLoadFromMemOpToR64 I info arg.memop.size arg.memop.seg
              arg.memop.disp arg.memop.base arg.memop.index arg.memop.scale
              arg.ptr regno with
      | (loaded, info1, o) =>
        .ok ((if loaded then t else TYPE_NULL_PTR), info1, o)
  | .op | .src | .dst | .imm | .reg | .mem =>
      match getOperand I arg.value (argOpTypeFilter arg.kind)
              (argAccessFilter arg.kind) with
      | Option.none =>
          .ok (getOperandType I Option.none arg.ptr arg.field, info,
               warnZero "operand index is out-of-range" regno)
      | some op =>
        let t := getOperandType I (some op) arg.ptr arg.field
        if !arg.ptr ∧ arg.field = FieldKind.none ∧ op.type = OpType.mem ∧
           action.call = CallKind.after then
          .ok (TYPE_NULL_PTR, info,
               warnZero "operand may be invalid after instruction" regno)
        else if !arg.ptr ∧ arg.field = FieldKind.none ∧
                op.type = OpType.mem ∧
                (I.mnemonic = Mnemonic.lea ∨ I.mnemonic = Mnemonic.nop ∨
                 op.access = 0) then
          .ok (TYPE_NULL_PTR, info,
               warnZero "operand is not accessed by the instruction" regno)
        else
          match sendLoadOperandMetadata I op arg.ptr arg.field info regno with
          | .error msg => .error msg
          | .ok (loaded, info1, o) =>
              .ok ((if loaded then t else TYPE_NULL_PTR), info1, o)
  | .invalid => .error ("NYI argument")

/-- Embedding of sendLoadArgumentMetadata (lines 993-1311): marshal one
argument into its System V argument register.  Exceeding the maximum number
of arguments, an unhandled argument kind, a failed user-value lookup and an
unknown operand type are fatal (Except.error); every per-argument failure is
a diagnostic plus a zero substitution inside a successful result. -/
def sendLoadArgumentMetadata (env : Env) (info : CallInfo)
    (action : ActionSpec) (arg : Argument) (I : InstrInfo) (id : Int)
    (argno : Nat) : Except String (Ty × CallInfo × Out) :=
  let regno := getArgRegIdx argno
  if regno < 0 then
    .error ("call instrumentation exceeds the maximum number of arguments")
  else
    match sendSaveRegToStack info (getReg regno) with
    | (_, info0, out0) =>
      match loadArgumentCore env info0 action arg I id regno with
      | .error msg => .error msg
      | .ok (t, info1, o) =>
          .ok (t, (info1.clobber (getReg regno)).use (getReg regno),
               out0 ++ o)

/-- The argument-loading loop of buildMetadata (lines 1419-1425): marshal
each argument in order, accumulating the type signature. -/
def loadArgsLoop (env : Env) (action : ActionSpec) (I : InstrInfo) (id : Int) :
    List Argument → Nat → TypeSig → CallInfo →
    Except String (TypeSig × CallInfo × Out)
  | [], _, sig, info => .ok (sig, info, Out.empty)
  | arg :: rest, argno, sig, info =>
    match sendLoadArgumentMetadata env info action arg I id argno with
    | .error msg => .error msg
    | .ok (t, info1, o) =>
      match loadArgsLoop env action I id rest (argno + 1) (setType sig t argno)
              info1 with
      | .error msg => .error msg
      | .ok (sig1, info2, o1) => .ok (sig1, info2, o ++ o1)

/-- The stack-argument loop of buildMetadata (lines 1427-1437): push, from
last to first, every argument whose register is only a staging register
(its index differs from the argument position); returns the total stack
adjustment and the emitted tokens. -/
def pushStackArgs (info : CallInfo) (before : Bool) :
    List Nat → Int × List Tok
  | [] => (0, [])
  | argno :: rest =>
    let regno := getArgRegIdx argno
    if regno ≠ (argno : Int) then
      match sendPush info.rsp_offset before (getReg regno) Register.invalid with
      | (_, _, toksP) =>
        match pushStackArgs info before rest with
        | (off, toks) => (off + 8, toksP ++ toks)
    else pushStackArgs info before rest

/-- The callee-save restore loop of buildMetadata (lines 1438-1449): before a
non-clean call, reload every clobbered callee-save register from its saved
slot. -/
def restoreCalleeSave (clean : Bool) (rspArgsOff : Int) :
    List Int → CallInfo → CallInfo × List Tok
  | [], info => (info, [])
  | regno :: rest, info =>
    if clean then (info, [])
    else
      let reg := getReg regno
      if !info.isCallerSave reg && info.isClobbered reg then
        let toks := [sendMovFromStackToR64 (rspArgsOff + info.getOffset reg)
                       regno]
        match restoreCalleeSave clean rspArgsOff rest (info.restore reg) with
        | (info1, toks1) => (info1, toks ++ toks1)
      else restoreCalleeSave clean rspArgsOff rest info

/-- The restore-state pop loop of buildMetadata (lines 1481-1498): pop every
pushed register in reverse push order, deferring %rsp; returns whether %rsp
was pushed, the final tracker and the emitted tokens. -/
def popLoop : List Register → CallInfo → Bool × CallInfo × List Tok
  | [], info => (false, info, [])
  | reg :: rest, info =>
    if reg = Register.rsp then
      match popLoop rest info with
      | (_, info1, toks) => (true, info1, toks)
    else
      let preserveRAX := info.isUsed Register.rax
      let rscratch := if preserveRAX then info.getScratch []
                      else Register.invalid
      match sendPop preserveRAX reg rscratch with
      | (clobbered, toksP) =>
        let info1 := if clobbered then info.clobber rscratch else info
        match popLoop rest info1 with
        | (popRsp, info2, toks) => (popRsp, info2, toksP ++ toks)

/-- Embedding of sendArgumentDataMetadata (lines 1316-1354): trailing data
for one argument. -/
def sendArgumentDataMetadata (arg : Argument) (I : InstrInfo) (argno : Nat) :
    List Tok :=
  match arg.kind with
  | .asm =>
      if arg.duplicate then []
      else [Tok.label (".LasmStr"), Tok.strlit I.instrStr]
  | .bytes =>
      if arg.duplicate then []
      else [Tok.label (".Lbytes")] ++ I.data.map Tok.byte
  | .op | .src | .dst | .imm | .reg | .mem =>
      if !arg.ptr then []
      else
        sendOperandDataMetadata
          (getOperand I arg.value (argOpTypeFilter arg.kind)
            (argAccessFilter arg.kind))
          (getArgRegIdx argno)
  | _ => []

/-- The trailing-data loop of buildMetadata (lines 1519-1524). -/
def dataLoop (I : InstrInfo) : List Argument → Nat → List Tok
  | [], _ => []
  | arg :: rest, argno =>
      sendArgumentDataMetadata arg I argno ++ dataLoop I rest (argno + 1)

/-- The lea 0xNNNN(%rsp),%rsp byte sequence used to discard stack space. -/
def leaRspBytes (off : Int) : List Tok :=
  [Tok.byte 0x48, Tok.byte 0x8d, Tok.byte 0xa4, Tok.byte 0x24, Tok.int32 off]

/-- One named metadata entry (name plus token stream). -/
abbrev MetaEntry := String × List Tok

/-- The ACTION_CALL branch of buildMetadata (lines 1400-1533): marshal the
arguments, resolve and call the function, restore the saved state and the
stack pointer, and append the trailing data, producing the five named
metadata entries.  An unresolvable callee symbol (no address, or an address
beyond the 32-bit addressing range) is fatal. -/
def buildCallMetadata (env : Env) (action : ActionSpec) (I : InstrInfo)
    (id : Int) : Except String (List MetaEntry) :=
  let state := action.args.any (fun a => a.kind = ArgumentKind.state)
  let before := action.call ≠ CallKind.after
  let conditional := action.call = CallKind.conditional ∨
                     action.call = CallKind.conditionalJump
  let info0 := CallInfo.init action.clean state conditional
                 action.args.length before
  match loadArgsLoop env action I id action.args 0 TYPESIG_EMPTY info0 with
  | .error msg => .error msg
  | .ok (sig, info1, outArgs) =>
    match pushStackArgs info1 before
            ((List.range action.args.length).reverse) with
    | (rspArgsOff, stackToks) =>
      match restoreCalleeSave action.clean rspArgsOff
              ((List.range 17).map Int.ofNat) info1 with
      | (info2, csToks) =>
        let mdLoadArgs := outArgs.toks ++ stackToks ++ csToks
        let addr := env.lookupSymbol action.symbol sig
        if addr < 0 ∨ addr > INT32_MAX then
          .error ("failed to find a symbol matching the call")
        else
          let info3 := info2.call conditional
          match popLoop info3.pushedRegs
                  { info3 with pushedRegs := [] } with
          | (popRsp, _info4, popToks) =>
            let mdRestoreState :=
              (if rspArgsOff ≠ 0 then leaRspBytes rspArgsOff else []) ++
              popToks
            let mdRestoreRSP :=
              if popRsp then [Tok.pop Register.rsp] else leaRspBytes 0x4000
            let mdData := dataLoop I action.args 0
            .ok [("loadArgs", mdLoadArgs),
                 ("function", [Tok.rel32 addr]),
                 ("restoreState", mdRestoreState),
                 ("restoreRSP", mdRestoreRSP),
                 ("data", mdData)]

/-- Embedding of buildMetadata (lines 1359-1541).  A missing action and the
EXIT/PASSTHRU/PLUGIN/TRAP kinds produce no metadata (C returns nullptr);
ACTION_PRINT produces the two asmStr entries; ACTION_CALL produces the five
call entries.  The C null-terminator slot written after the last entry is
represented by the end of the returned list. -/
def buildMetadata (env : Env) (action : Option ActionSpec) (I : InstrInfo)
    (id : Int) : Except String (Option (List MetaEntry)) :=
  match action with
  | Option.none => .ok Option.none
  | some action =>
    match action.kind with
    | .exit | .passthru | .plugin | .trap => .ok Option.none
    | .print =>
        .ok (some
          [("asmStr", [Tok.strlit (I.instrStr ++ "\n")]),
           ("asmStrLen", [Tok.int32 ((I.instrStr.length : Int) + 1)])])
    | .call =>
        match buildCallMetadata env action I id with
        | .error msg => .error msg
        | .ok entries => .ok (some entries)

theorem execToks_append (a b : List Tok) (m : Machine) :
    execToks (a ++ b) m = execToks b (execToks a m) := by
  simp [execToks, List.foldl_append]

theorem Machine.setReg_regs_self (m : Machine) (i v : Int) :
    (m.setReg i v).regs i = v := by
  simp [Machine.setReg]

theorem execTok_labels (m : Machine) (t : Tok) :
    (execTok m t).labels = m.labels := by
  cases t <;> simp [execTok, Machine.setReg]

theorem execToks_labels (ts : List Tok) (m : Machine) :
    (execToks ts m).labels = m.labels := by
  induction ts generalizing m with
  | nil => rfl
  | cons t ts ih =>
    show (execToks ts (execTok m t)).labels = m.labels
    rw [ih, execTok_labels]

/-- After a token list ending in a pc-relative label lea into register d,
register d holds the address of that label. -/
theorem execToks_last_leaPCl (ts : List Tok) (l : String) (d : Int)
    (m : Machine) :
    (execToks (ts ++ [Tok.leaPCl l d]) m).regs d = m.labels l := by
  rw [execToks_append]
  show (execTok (execToks ts m) (Tok.leaPCl l d)).regs d = m.labels l
  rw [execTok, Machine.setReg_regs_self, execToks_labels]

/-- Executing the stream emitted by sendLoadValueMetadata loads exactly the
requested value, for any value that fits a 64-bit signed integer. -/
theorem sendLoadValueMetadata_exec (v : Int) (argno : Int) (m : Machine)
    (h1 : -9223372036854775808 ≤ v) (h2 : v ≤ 9223372036854775807) :
    (execToks (sendLoadValueMetadata v argno) m).regs argno = v := by
  unfold sendLoadValueMetadata
  by_cases hs : INT32_MIN ≤ v ∧ v ≤ INT32_MAX
  · rw [if_pos hs]
    simp only [execToks, List.foldl, execTok, sendSExtFromI32ToR64]
    rw [Machine.setReg_regs_self]
    unfold sint32 toU32 INT32_MIN INT32_MAX at *
    omega
  · rw [if_neg hs]
    by_cases hz : 0 ≤ v ∧ v ≤ UINT32_MAX
    · rw [if_pos hz]
      simp only [execToks, List.foldl, execTok, sendZExtFromI32ToR64]
      rw [Machine.setReg_regs_self]
      unfold toU32 UINT32_MAX at *
      omega
    · rw [if_neg hz]
      simp only [execToks, List.foldl, execTok, sendMovFromI64ToR64]
      rw [Machine.setReg_regs_self]
      unfold sint64 toU64 INT32_MIN INT32_MAX UINT32_MAX at *
      omega

/-- C3: for every 64-bit integer value, the constant loader chooses exactly
one of three encodings by value range: the sign-extending imm32 form when
INT32_MIN <= V <= INT32_MAX, else the zero-extending imm32 form when
0 <= V <= UINT32_MAX, else the full 64-bit move; and executing whichever
form was emitted leaves exactly V in the destination register. -/
theorem sendLoadValueMetadata_three_encodings (v : Int) (argno : Int)
    (h1 : -9223372036854775808 ≤ v) (h2 : v ≤ 9223372036854775807) :
    ((INT32_MIN ≤ v ∧ v ≤ INT32_MAX) →
       sendLoadValueMetadata v argno = [Tok.sext32 (toU32 v) argno]) ∧
    (¬(INT32_MIN ≤ v ∧ v ≤ INT32_MAX) → (0 ≤ v ∧ v ≤ UINT32_MAX) →
       sendLoadValueMetadata v argno = [Tok.zext32 (toU32 v) argno]) ∧
    (¬(INT32_MIN ≤ v ∧ v ≤ INT32_MAX) → ¬(0 ≤ v ∧ v ≤ UINT32_MAX) →
       sendLoadValueMetadata v argno = [Tok.movI64 (toU64 v) argno]) ∧
    (∀ m : Machine,
       (execToks (sendLoadValueMetadata v argno) m).regs argno = v) := by
  refine ⟨?_, ?_, ?_, ?_⟩
  · intro hs
    simp [sendLoadValueMetadata, hs, sendSExtFromI32ToR64]
  · intro hs hz
    simp [sendLoadValueMetadata, hs, hz, sendZExtFromI32ToR64]
  · intro hs hz
    simp [sendLoadValueMetadata, hs, hz, sendMovFromI64ToR64]
  · intro m
    exact sendLoadValueMetadata_exec v argno m h1 h2

/-- C3 witness: at the boundary value UINT32_MAX = 4294967295 the loader
picks the zero-extending form and the executed result is the value itself. -/
theorem sendLoadValueMetadata_three_encodings_witness :
    sendLoadValueMetadata 4294967295 0 = [Tok.zext32 (toU32 4294967295) 0] ∧
    (execToks (sendLoadValueMetadata 4294967295 0)
        ⟨fun _ => 0, fun _ => 0, fun _ => 0, fun _ => 0⟩).regs 0 =
      4294967295 := by
  have h := sendLoadValueMetadata_three_encodings 4294967295 0
    (by norm_num) (by norm_num)
  refine ⟨h.2.1 (by norm_num [INT32_MIN, INT32_MAX])
            (by norm_num [UINT32_MAX]), h.2.2.2 _⟩

/-- Any register getScratch can return has a register index in 0..15. -/
theorem getScratch_idx (info : CallInfo) (exclude : List Register)
    (h : info.getScratch exclude ≠ Register.invalid) :
    0 ≤ getRegIdx (info.getScratch exclude) ∧
    getRegIdx (info.getScratch exclude) ≤ 15 := by
  unfold CallInfo.getScratch at *
  cases hf : scratchCandidates.find? (fun r =>
      info.isClobbered r && !info.isUsed r &&
      !(decide (getCanonicalReg r ∈ exclude.map getCanonicalReg))) with
  | none => rw [hf] at h; exact absurd rfl h
  | some r =>
    have hmem := List.mem_of_find?_eq_some hf
    fin_cases hmem <;> exact ⟨by decide, by decide⟩

/-- C8: the temporary save/undo pair is a round trip.  Saving an already
clobbered register yields the INT32_MAX "not saved" sentinel without
emitting anything; undoing a "not saved" sentinel emits nothing; and for a
register that is actually saved (to a scratch register or a redzone slot),
executing the save tokens followed by the undo tokens returns the register
to the value it held before the save, on every machine state. -/
theorem sendTemporarySaveReg_undo_round_trip (info : CallInfo)
    (reg : Register) (exclude : List Register) (slot : Int)
    (hslot : slot ≤ 0) (_hreg : 0 ≤ getRegIdx reg) :
    (info.isClobbered reg = true →
       sendTemporarySaveReg info reg exclude slot = (INT32_MAX, info, slot, [])) ∧
    (∀ r : Register, sendUndoTemporaryMovReg r INT32_MAX = []) ∧
    (info.isClobbered reg = false →
       ∀ m : Machine,
         (execToks
           ((sendTemporarySaveReg info reg exclude slot).2.2.2 ++
            sendUndoTemporaryMovReg reg
              (sendTemporarySaveReg info reg exclude slot).1) m).regs
           (getRegIdx reg) = m.regs (getRegIdx reg)) := by
  refine ⟨?_, ?_, ?_⟩
  · intro hc
    simp [sendTemporarySaveReg, hc]
  · intro r
    simp [sendUndoTemporaryMovReg, RMAX_IDX, INT32_MAX]
  · intro hc m
    simp only [sendTemporarySaveReg, hc, Bool.false_eq_true, if_false,
      sendTemporaryMovReg]
    by_cases hs : info.getScratch exclude = Register.invalid
    · rw [if_neg (fun hne => hne hs)]
      simp only []
      rw [sendUndoTemporaryMovReg]
      rw [if_neg (by unfold RMAX_IDX; omega), if_neg (by omega)]
      simp only [sendMovFromR64ToStack, sendMovFromStackToR64, execToks,
        List.foldl, execTok]
      simp [Machine.setReg, truncW]
    · have hidx := getScratch_idx info exclude hs
      rw [if_pos hs]
      simp only []
      rw [sendUndoTemporaryMovReg]
      rw [if_neg (by unfold RMAX_IDX; omega), if_pos (by omega)]
      simp only [sendMovFromR64ToR64, execToks, List.foldl, execTok]
      by_cases he : getRegIdx (info.getScratch exclude) = getRegIdx reg
      · simp [Machine.setReg, he]
      · simp [Machine.setReg, he]

/-- C8 witness: a concrete round trip.  With %rax clobbered and nothing
used, saving %rbx picks %rax as the scratch register; saving clobbered %rax
itself yields the sentinel; the undo of the sentinel emits nothing; and the
round trip restores %rbx (index 10) on a concrete machine state. -/
theorem sendTemporarySaveReg_undo_round_trip_witness :
    ((⟨[Register.rax], [], [], 0x4000, true, false⟩ :
        CallInfo).isClobbered Register.rbx = false) ∧
    (execToks
      ((sendTemporarySaveReg ⟨[Register.rax], [], [], 0x4000, true, false⟩
          Register.rbx [] 0).2.2.2 ++
       sendUndoTemporaryMovReg Register.rbx
         (sendTemporarySaveReg ⟨[Register.rax], [], [], 0x4000, true, false⟩
            Register.rbx [] 0).1)
      ⟨fun i => i + 100, fun _ => 0, fun _ => 0, fun _ => 0⟩).regs
      (getRegIdx Register.rbx) =
    (fun i => (i : Int) + 100) (getRegIdx Register.rbx) := by
  have h := sendTemporarySaveReg_undo_round_trip
    ⟨[Register.rax], [], [], 0x4000, true, false⟩ Register.rbx [] 0
    (by norm_num) (by decide)
  exact ⟨by decide, h.2.2 (by decide) _⟩

/-- C10: for every access-field request against an existing operand, the
value loaded into the argument register is non-zero: PROT_READ for immediate
operands, and the operand access mask OR 0x80 otherwise. -/
theorem sendLoadOperandMetadata_access_nonzero (I : InstrInfo) (op : OpInfo)
    (info : CallInfo) (argno : Int) (ptr : Bool) (hacc : op.access < 256) :
    ∃ v : Int,
      sendLoadOperandMetadata I op ptr FieldKind.access info argno =
        .ok (true, info, outT (sendLoadValueMetadata v argno)) ∧
      0 < v ∧
      (op.type = OpType.imm → v = (PROT_READ : Int)) ∧
      (op.type ≠ OpType.imm → v = ((op.access ||| 0x80 : Nat) : Int)) ∧
      (∀ m : Machine,
        (execToks (sendLoadValueMetadata v argno) m).regs argno = v) := by
  by_cases hi : op.type = OpType.imm
  · refine ⟨(PROT_READ : Int), ?_, by norm_num [PROT_READ], fun _ => rfl,
      fun h => absurd hi h, fun m => ?_⟩
    · simp [sendLoadOperandMetadata, hi]
    · exact sendLoadValueMetadata_exec _ argno m (by norm_num [PROT_READ])
        (by norm_num [PROT_READ])
  · have hlt : op.access ||| 0x80 < 256 := by
      have h2 := @Nat.or_lt_two_pow op.access 0x80 8 (by simpa using hacc)
        (by norm_num)
      simpa using h2
    have hge : op.access ||| 0x80 ≠ 0 := by
      intro h
      have := congrArg (fun x => Nat.testBit x 7) h
      simp [Nat.testBit_lor] at this
      exact absurd this.2 (by decide)
    have hlo : -9223372036854775808 ≤ ((op.access ||| 0x80 : Nat) : Int) := by
      have := Int.natCast_nonneg (op.access ||| 0x80)
      omega
    have hhi : ((op.access ||| 0x80 : Nat) : Int) ≤ 9223372036854775807 := by
      have : ((op.access ||| 0x80 : Nat) : Int) < 256 := by exact_mod_cast hlt
      omega
    refine ⟨((op.access ||| 0x80 : Nat) : Int), ?_,
      by exact_mod_cast Nat.pos_of_ne_zero hge,
      fun h => absurd h hi, fun _ => rfl, fun m => ?_⟩
    · simp [sendLoadOperandMetadata, hi]
    · exact sendLoadValueMetadata_exec _ argno m hlo hhi

/-- C10 witness: a concrete memory operand with access mask 1 (read) yields
the loaded value 1 OR 0x80 = 0x81, which is non-zero. -/
theorem sendLoadOperandMetadata_access_nonzero_witness :
    ∃ v : Int,
      sendLoadOperandMetadata
        ⟨0x1000, 4, 0, Mnemonic.other "mov",
         [⟨OpType.mem, 8, 1, Register.none,
           ⟨Register.none, 0, Register.rax, Register.none, 1⟩, 0⟩],
         "mov", []⟩
        ⟨OpType.mem, 8, 1, Register.none,
         ⟨Register.none, 0, Register.rax, Register.none, 1⟩, 0⟩
        false FieldKind.access
        (CallInfo.init false false false 1 true) 0 =
        .ok (true, CallInfo.init false false false 1 true,
             outT (sendLoadValueMetadata v 0)) ∧
      0 < v ∧
      ((⟨OpType.mem, 8, 1, Register.none,
         ⟨Register.none, 0, Register.rax, Register.none, 1⟩, 0⟩ :
          OpInfo).type = OpType.imm → v = (PROT_READ : Int)) ∧
      ((⟨OpType.mem, 8, 1, Register.none,
         ⟨Register.none, 0, Register.rax, Register.none, 1⟩, 0⟩ :
          OpInfo).type ≠ OpType.imm →
        v = (((⟨OpType.mem, 8, 1, Register.none,
               ⟨Register.none, 0, Register.rax, Register.none, 1⟩, 0⟩ :
               OpInfo).access ||| 0x80 : Nat) : Int)) ∧
      (∀ m : Machine,
        (execToks (sendLoadValueMetadata v 0) m).regs 0 = v) :=
  sendLoadOperandMetadata_access_nonzero _ _ _ 0 false (by norm_num)

/-- C6: getOperandType gives the 8-bit integer type for the access and type
fields and the 64-bit integer type for the size field; the displacement,
base, index and scale fields have the null-pointer type on a non-memory
operand, while on a memory operand displacement is 32-bit and scale 8-bit;
a pointer-typed request for a 32-bit register operand widens to 64 bits and
adds the pointer tag; and a pointer-typed immediate operand carries the
const tag. -/
theorem getOperandType_field_types (I : InstrInfo) (op : OpInfo) (ptr : Bool) :
    (getOperandType I (some op) ptr FieldKind.access = TYPE_INT8) ∧
    (getOperandType I (some op) ptr FieldKind.type = TYPE_INT8) ∧
    (getOperandType I (some op) ptr FieldKind.size = TYPE_INT64) ∧
    (op.type ≠ OpType.mem →
       getOperandType I (some op) ptr FieldKind.displ = TYPE_NULL_PTR ∧
       getOperandType I (some op) ptr FieldKind.base = TYPE_NULL_PTR ∧
       getOperandType I (some op) ptr FieldKind.index = TYPE_NULL_PTR ∧
       getOperandType I (some op) ptr FieldKind.scale = TYPE_NULL_PTR) ∧
    (op.type = OpType.mem →
       getOperandType I (some op) ptr FieldKind.displ = TYPE_INT32 ∧
       getOperandType I (some op) ptr FieldKind.scale = TYPE_INT8) ∧
    (op.type = OpType.reg → getRegType op.reg = TYPE_INT32 →
       getOperandType I (some op) true FieldKind.none = TYPE_INT64.addPtr) ∧
    (op.type = OpType.imm →
       (getOperandType I (some op) true FieldKind.none).isConst = true) := by
  refine ⟨rfl, rfl, rfl, ?_, ?_, ?_, ?_⟩
  · intro hmem
    refine ⟨?_, ?_, ?_, ?_⟩ <;>
      simp [getOperandType, hmem]
  · intro hmem
    exact ⟨by simp [getOperandType, hmem], by simp [getOperandType, hmem]⟩
  · intro hreg h32
    simp [getOperandType, hreg, h32]
    decide
  · intro himm
    simp only [getOperandType, himm]
    split_ifs <;>
      simp [Ty.addConst, Ty.addPtr, TYPE_NULL_PTR, TYPE_INT8, TYPE_INT16,
        TYPE_INT32, TYPE_INT64]

/-- C6 witness: concrete instantiation at a register operand holding %eax
(a 32-bit register) requested as a pointer. -/
theorem getOperandType_field_types_witness :
    ((⟨OpType.reg, 4, 1, Register.eax,
       ⟨Register.none, 0, Register.none, Register.none, 1⟩, 0⟩ :
        OpInfo).type = OpType.reg →
     getRegType (⟨OpType.reg, 4, 1, Register.eax,
       ⟨Register.none, 0, Register.none, Register.none, 1⟩, 0⟩ :
        OpInfo).reg = TYPE_INT32 →
     getOperandType ⟨0, 1, 0, Mnemonic.nop, [], "", []⟩
       (some ⟨OpType.reg, 4, 1, Register.eax,
         ⟨Register.none, 0, Register.none, Register.none, 1⟩, 0⟩)
       true FieldKind.none = TYPE_INT64.addPtr) ∧
    getOperandType ⟨0, 1, 0, Mnemonic.nop, [], "", []⟩
      (some ⟨OpType.reg, 4, 1, Register.eax,
        ⟨Register.none, 0, Register.none, Register.none, 1⟩, 0⟩)
      true FieldKind.access = TYPE_INT8 := by
  have h := getOperandType_field_types ⟨0, 1, 0, Mnemonic.nop, [], "", []⟩
    ⟨OpType.reg, 4, 1, Register.eax,
     ⟨Register.none, 0, Register.none, Register.none, 1⟩, 0⟩ true
  exact ⟨fun _ _ => h.2.2.2.2.2.1 rfl (by decide), h.1⟩

/-- C4 (code defect): because the displacement parameter of
sendLoadFromMemOpToR64 has C type int32_t, the out-of-bounds check at line
377 can never fire.  At this concrete input — a %rip-based operand of an
instruction at address 0x100000000 with size 7 and displacement 0, whose
mathematically adjusted displacement 0x100000007 exceeds INT32_MAX — the
function silently truncates the displacement to 7, emits the encoding with
the wrong relocation, produces no diagnostic, and reports success, where the
claim (and the unreachable warning text in the code itself) require a
diagnostic, a zero substitution and failure. -/
theorem sendLoadFromMemOpToR64_overflow_not_detected :
    ((0 : Int) + 0x100000000 + 7 > INT32_MAX) ∧
    wrap32 ((0 : Int) + 0x100000000 + 7) = 7 ∧
    sendLoadFromMemOpToR64
      ⟨0x100000000, 7, 0, Mnemonic.other "mov", [], "mov", []⟩
      (CallInfo.init false false false 1 true)
      8 Register.none 0 Register.rip Register.none 1 false 0 =
      (true, CallInfo.init false false false 1 true,
       outT [Tok.byte 0x48, Tok.byte 0x8b, Tok.byte 61, Tok.rel32 7]) := by
  refine ⟨by norm_num [INT32_MAX], by decide, ?_⟩
  decide

/-- C2 counterexample: jcxz is a conditional jump handled by the
control-flow target resolver (it is in the jump list of
sendLoadTargetMetadata and is none of ret/call/jmp), yet sendLoadNextMetadata
emits no three-way branch for it: the output is the single fall-through
load of .Lcontinue, with no jcc opcode, no rel8 relocations and no labels. -/
theorem sendLoadNextMetadata_jcxz_not_three_way :
    isTargetMnemonic Mnemonic.jcxz = true ∧
    Mnemonic.jcxz ≠ Mnemonic.ret ∧ Mnemonic.jcxz ≠ Mnemonic.call ∧
    Mnemonic.jcxz ≠ Mnemonic.jmp ∧
    sendLoadNextMetadata
      ⟨0x1000, 2, 0, Mnemonic.jcxz,
       [⟨OpType.imm, 1, 0, Register.none,
         ⟨Register.none, 0, Register.none, Register.none, 1⟩, 5⟩],
       "jcxz .L1", []⟩
      (CallInfo.init false false false 1 true) 0 =
      (CallInfo.init false false false 1 true,
       outT [Tok.leaPCl ".Lcontinue" 0]) := by
  refine ⟨rfl, by decide, by decide, by decide, ?_⟩
  decide

/-- C2 (amended): for each of the sixteen condition-code jumps, the emitted
stream is the three-way branch of the claim — the jcc opcode with a rel8 to
the per-register taken label, the fall-through load of .Lcontinue, a jmp
rel8 to the next label, the taken label followed by the target load of
sendLoadTargetMetadata, and the next label; jecxz and jrcxz produce the same
shape with %rcx first temporarily restored (with the 0x67 address-size
prefix for jecxz) and the temporary move undone after the next label.
jcxz (not encodable in 64-bit mode) is excluded: it takes the default path. -/
theorem sendLoadNextMetadata_three_way (I : InstrInfo) (info : CallInfo)
    (argno : Int) :
    (∀ opc : Nat, jccOpcode I.mnemonic = some opc →
       sendLoadNextMetadata I info argno =
         ((sendLoadTargetMetadata I info argno).1,
          outT [Tok.byte opc,
                Tok.rel8 (".Ltaken" ++ regLabelSuffix argno),
                Tok.leaPCl (".Lcontinue") argno,
                Tok.byte 0xeb, Tok.rel8 (".Lnext" ++ regLabelSuffix argno),
                Tok.label (".Ltaken" ++ regLabelSuffix argno)] ++
          (sendLoadTargetMetadata I info argno).2 ++
          outT [Tok.label (".Lnext" ++ regLabelSuffix argno)])) ∧
    ((I.mnemonic = Mnemonic.jecxz ∨ I.mnemonic = Mnemonic.jrcxz) →
       sendLoadNextMetadata I info argno =
         ((sendLoadTargetMetadata I
             (sendTemporaryRestoreReg info Register.rcx [getReg argno] 0).2.1
             argno).1,
          outT (sendTemporaryRestoreReg info Register.rcx
                  [getReg argno] 0).2.2.2 ++
          outT ((if I.mnemonic = Mnemonic.jecxz then [Tok.byte 0x67]
                 else []) ++
                [Tok.byte 0xe3,
                 Tok.rel8 (".Ltaken" ++ regLabelSuffix argno),
                 Tok.leaPCl (".Lcontinue") argno,
                 Tok.byte 0xeb,
                 Tok.rel8 (".Lnext" ++ regLabelSuffix argno),
                 Tok.label (".Ltaken" ++ regLabelSuffix argno)]) ++
          (sendLoadTargetMetadata I
             (sendTemporaryRestoreReg info Register.rcx [getReg argno] 0).2.1
             argno).2 ++
          outT ([Tok.label (".Lnext" ++ regLabelSuffix argno)] ++
                sendUndoTemporaryMovReg Register.rcx
                  (sendTemporaryRestoreReg info Register.rcx
                     [getReg argno] 0).1))) := by
  obtain ⟨addr, sz, off, m, ops, str, dat⟩ := I
  constructor
  · intro opc hopc
    rcases htm : sendLoadTargetMetadata ⟨addr, sz, off, m, ops, str, dat⟩
        info argno with ⟨i1, o1⟩
    cases m <;> simp only [jccOpcode] at hopc <;>
      first
        | exact Option.noConfusion hopc
        | (injection hopc with hopc1; subst hopc1;
           simp [sendLoadNextMetadata, jccOpcode, htm,
             sendLeaFromPCRelToR64Label, Out.append_def, outT])
  · intro hm
    rcases hr : sendTemporaryRestoreReg info Register.rcx [getReg argno] 0
      with ⟨scr, i1, sl, tr⟩
    rcases htm : sendLoadTargetMetadata ⟨addr, sz, off, m, ops, str, dat⟩
        i1 argno with ⟨i2, o2⟩
    rcases hm with hm | hm <;>
      (subst hm;
       simp [sendLoadNextMetadata, hr, htm, sendLeaFromPCRelToR64Label,
         Out.append_def, outT])

/-- C2 witness: instantiation of the three-way-branch theorem at a concrete
je instruction (opcode 0x74), discharging the jccOpcode hypothesis. -/
theorem sendLoadNextMetadata_three_way_witness :
    sendLoadNextMetadata
      ⟨0x1000, 2, 0, Mnemonic.je,
       [⟨OpType.imm, 1, 0, Register.none,
         ⟨Register.none, 0, Register.none, Register.none, 1⟩, 5⟩],
       "je .L1", []⟩
      (CallInfo.init false false false 1 true) 0 =
      ((sendLoadTargetMetadata
          ⟨0x1000, 2, 0, Mnemonic.je,
           [⟨OpType.imm, 1, 0, Register.none,
             ⟨Register.none, 0, Register.none, Register.none, 1⟩, 5⟩],
           "je .L1", []⟩
          (CallInfo.init false false false 1 true) 0).1,
       outT [Tok.byte 0x74,
             Tok.rel8 (".Ltaken" ++ regLabelSuffix 0),
             Tok.leaPCl (".Lcontinue") 0,
             Tok.byte 0xeb, Tok.rel8 (".Lnext" ++ regLabelSuffix 0),
             Tok.label (".Ltaken" ++ regLabelSuffix 0)] ++
       (sendLoadTargetMetadata
          ⟨0x1000, 2, 0, Mnemonic.je,
           [⟨OpType.imm, 1, 0, Register.none,
             ⟨Register.none, 0, Register.none, Register.none, 1⟩, 5⟩],
           "je .L1", []⟩
          (CallInfo.init false false false 1 true) 0).2 ++
       outT [Tok.label (".Lnext" ++ regLabelSuffix 0)]) :=
  (sendLoadNextMetadata_three_way _ _ _).1 0x74 rfl

/-- C9: for a register-kind argument naming %rip passed by value, the
CALL_AFTER case emits the load of .Lcontinue and then falls through into the
default case, which loads .Linstruction into the same argument register; in
every other call-timing mode only .Linstruction is loaded.  Consequently the
register's final value is the .Linstruction address in every mode, and the
derived type is const void pointer. -/
theorem sendLoadArgumentMetadata_rip_fallthrough (env : Env) (info : CallInfo)
    (action : ActionSpec) (I : InstrInfo) (id : Int) (argno : Nat)
    (arg : Argument) (hk : arg.kind = ArgumentKind.register)
    (hp : arg.ptr = false) (hr : arg.reg = Register.rip)
    (hround : 0 ≤ getArgRegIdx argno) :
    ∃ (info1 : CallInfo) (o : Out),
      sendLoadArgumentMetadata env info action arg I id argno =
        .ok (TYPE_CONST_VOID_PTR, info1, o) ∧
      o.toks =
        (sendSaveRegToStack info (getReg (getArgRegIdx argno))).2.2.toks ++
        (if action.call = CallKind.after then
           [Tok.leaPCl (".Lcontinue") (getArgRegIdx argno),
            Tok.leaPCl (".Linstruction") (getArgRegIdx argno)]
         else [Tok.leaPCl (".Linstruction") (getArgRegIdx argno)]) ∧
      (∀ m : Machine,
        (execToks o.toks m).regs (getArgRegIdx argno) =
          m.labels ".Linstruction") := by
  obtain ⟨k, p, dup, v, rg, nm, fl, mo⟩ := arg
  simp only at hk hp hr
  subst hk; subst hp; subst hr
  rcases hsv : sendSaveRegToStack info (getReg (getArgRegIdx argno))
    with ⟨ok0, info0, out0⟩
  have hnlt : ¬ getArgRegIdx argno < 0 := not_lt.mpr hround
  cases hc : action.call with
  | after =>
      refine ⟨(info0.clobber (getReg (getArgRegIdx argno))).use
                (getReg (getArgRegIdx argno)),
              out0 ++ outT
                [Tok.leaPCl (".Lcontinue") (getArgRegIdx argno),
                 Tok.leaPCl (".Linstruction") (getArgRegIdx argno)],
              ?_, ?_, ?_⟩
      · simp [sendLoadArgumentMetadata, hnlt, hsv,
          loadArgumentCore, hc, sendLeaFromPCRelToR64Label]
      · simp [Out.append_def, outT, hc]
      · intro m
        simp only [Out.append_def, outT, hc, if_pos]
        rw [show out0.toks ++
              [Tok.leaPCl (".Lcontinue") (getArgRegIdx argno),
               Tok.leaPCl (".Linstruction") (getArgRegIdx argno)] =
            (out0.toks ++ [Tok.leaPCl (".Lcontinue") (getArgRegIdx argno)]) ++
            [Tok.leaPCl (".Linstruction") (getArgRegIdx argno)] by
          simp]
        exact execToks_last_leaPCl _ _ _ m
  | before =>
      refine ⟨(info0.clobber (getReg (getArgRegIdx argno))).use
                (getReg (getArgRegIdx argno)),
              out0 ++ outT
                [Tok.leaPCl (".Linstruction") (getArgRegIdx argno)],
              ?_, ?_, ?_⟩
      · simp [sendLoadArgumentMetadata, hnlt, hsv,
          loadArgumentCore, hc, sendLeaFromPCRelToR64Label]
      · simp [Out.append_def, outT, hc]
      · intro m
        simp only [Out.append_def, outT, hc]
        exact execToks_last_leaPCl _ _ _ m
  | conditional =>
      refine ⟨(info0.clobber (getReg (getArgRegIdx argno))).use
                (getReg (getArgRegIdx argno)),
              out0 ++ outT
                [Tok.leaPCl (".Linstruction") (getArgRegIdx argno)],
              ?_, ?_, ?_⟩
      · simp [sendLoadArgumentMetadata, hnlt, hsv,
          loadArgumentCore, hc, sendLeaFromPCRelToR64Label]
      · simp [Out.append_def, outT, hc]
      · intro m
        simp only [Out.append_def, outT, hc]
        exact execToks_last_leaPCl _ _ _ m
  | conditionalJump =>
      refine ⟨(info0.clobber (getReg (getArgRegIdx argno))).use
                (getReg (getArgRegIdx argno)),
              out0 ++ outT
                [Tok.leaPCl (".Linstruction") (getArgRegIdx argno)],
              ?_, ?_, ?_⟩
      · simp [sendLoadArgumentMetadata, hnlt, hsv,
          loadArgumentCore, hc, sendLeaFromPCRelToR64Label]
      · simp [Out.append_def, outT, hc]
      · intro m
        simp only [Out.append_def, outT, hc]
        exact execToks_last_leaPCl _ _ _ m

/-- A concrete environment used to instantiate theorems at closed inputs. -/
def envA : Env :=
  { lookupValue := fun _ _ => some 42
    getELFObject := fun _ => -1
    getELFGOTEntry := fun _ => 0
    lookupSymbol := fun _ _ => 0x400000
    rand := 7 }

/-- A concrete call action used to instantiate theorems at closed inputs. -/
def actionA : ActionSpec :=
  { kind := ActionKind.call, call := CallKind.after, clean := false,
    args := [{ kind := ArgumentKind.register, ptr := false,
               duplicate := false, value := 0, reg := Register.rip,
               name := "", field := FieldKind.none,
               memop := { size := 0, seg := Register.none, disp := 0,
                          base := Register.none, index := Register.none,
                          scale := 1 } }],
    symbol := "f" }

/-- A concrete instruction used to instantiate theorems at closed inputs. -/
def instrA : InstrInfo :=
  { address := 0x1000, size := 3, offset := 0x800,
    mnemonic := Mnemonic.other "mov", ops := [], instrStr := "mov", data := [] }

/-- C9 witness: the fall-through theorem instantiated at a concrete
CALL_AFTER action, with every hypothesis discharged at the concrete input. -/
theorem sendLoadArgumentMetadata_rip_fallthrough_witness :
    ∃ (info1 : CallInfo) (o : Out),
      sendLoadArgumentMetadata envA (CallInfo.init false false false 1 false)
        actionA
        { kind := ArgumentKind.register, ptr := false, duplicate := false,
          value := 0, reg := Register.rip, name := "",
          field := FieldKind.none,
          memop := { size := 0, seg := Register.none, disp := 0,
                     base := Register.none, index := Register.none,
                     scale := 1 } }
        instrA 0 0 =
        .ok (TYPE_CONST_VOID_PTR, info1, o) ∧
      o.toks =
        (sendSaveRegToStack (CallInfo.init false false false 1 false)
          (getReg (getArgRegIdx 0))).2.2.toks ++
        (if actionA.call = CallKind.after then
           [Tok.leaPCl (".Lcontinue") (getArgRegIdx 0),
            Tok.leaPCl (".Linstruction") (getArgRegIdx 0)]
         else [Tok.leaPCl (".Linstruction") (getArgRegIdx 0)]) ∧
      (∀ m : Machine,
        (execToks o.toks m).regs (getArgRegIdx 0) =
          m.labels ".Linstruction") :=
  sendLoadArgumentMetadata_rip_fallthrough envA
    (CallInfo.init false false false 1 false) actionA instrA 0 0 _
    rfl rfl rfl (by decide)

/-- C7: three conditions abort the whole build with a fatal error rather
than a diagnostic-plus-zero substitution: an argument position with no
argument register (exceeding the maximum supported number of call
arguments), an unrecognized argument kind, and a callee symbol that does not
resolve to an address within the 32-bit addressing range in a call action. -/
theorem buildMetadata_fatal_errors :
    (∀ (env : Env) (info : CallInfo) (action : ActionSpec) (arg : Argument)
       (I : InstrInfo) (id : Int) (argno : Nat),
       getArgRegIdx argno < 0 →
       sendLoadArgumentMetadata env info action arg I id argno =
         .error ("call instrumentation exceeds the maximum number of arguments")) ∧
    (∀ (env : Env) (info : CallInfo) (action : ActionSpec) (arg : Argument)
       (I : InstrInfo) (id : Int) (argno : Nat),
       arg.kind = ArgumentKind.invalid → 0 ≤ getArgRegIdx argno →
       sendLoadArgumentMetadata env info action arg I id argno =
         .error ("NYI argument")) ∧
    (∀ (env : Env) (action : ActionSpec) (I : InstrInfo) (id : Int),
       action.kind = ActionKind.call →
       (∀ sig : TypeSig, env.lookupSymbol action.symbol sig < 0 ∨
          env.lookupSymbol action.symbol sig > INT32_MAX) →
       ∃ msg : String,
         buildMetadata env (some action) I id = .error msg) := by
  refine ⟨?_, ?_, ?_⟩
  · intro env info action arg I id argno h
    simp [sendLoadArgumentMetadata, h]
  · intro env info action arg I id argno hk h
    rcases hsv : sendSaveRegToStack info (getReg (getArgRegIdx argno))
      with ⟨ok0, info0, out0⟩
    simp [sendLoadArgumentMetadata, not_lt.mpr h, hsv, loadArgumentCore, hk]
  · intro env action I id hk hsym
    cases action with
    | mk k c cl args sym =>
      simp only at hk
      subst hk
      simp only [buildMetadata, buildCallMetadata]
      cases hl : loadArgsLoop env ⟨ActionKind.call, c, cl, args, sym⟩ I id args
          0 TYPESIG_EMPTY
          (CallInfo.init cl
            (args.any fun a => a.kind = ArgumentKind.state)
            (c = CallKind.conditional ∨ c = CallKind.conditionalJump)
            args.length (c ≠ CallKind.after)) with
      | error msg => exact ⟨msg, by simp [hl]⟩
      | ok res =>
        rcases res with ⟨sig, info1, outArgs⟩
        refine ⟨"failed to find a symbol matching the call", ?_⟩
        rcases hps : pushStackArgs info1 (c ≠ CallKind.after)
            ((List.range args.length).reverse) with ⟨off, stoks⟩
        rcases hcs : restoreCalleeSave cl off ((List.range 17).map Int.ofNat)
            info1 with ⟨info2, cstoks⟩
        have := hsym sig
        simp [hl, hps, hcs, this]

/-- An environment whose symbol lookups always fail (address -1). -/
def envB : Env :=
  { lookupValue := fun _ _ => some 0
    getELFObject := fun _ => -1
    getELFGOTEntry := fun _ => 0
    lookupSymbol := fun _ _ => -1
    rand := 0 }

/-- C7 witness: the three fatal conditions instantiated at closed inputs —
argument position 8 (beyond the maximum of 8 arguments), an unrecognized
argument kind, and a call action whose symbol resolves to no address. -/
theorem buildMetadata_fatal_errors_witness :
    (sendLoadArgumentMetadata envA (CallInfo.init false false false 9 true)
       actionA
       { kind := ArgumentKind.integer, ptr := false, duplicate := false,
         value := 1, reg := Register.none, name := "", field := FieldKind.none,
         memop := { size := 0, seg := Register.none, disp := 0,
                    base := Register.none, index := Register.none,
                    scale := 1 } }
       instrA 0 8 =
       .error ("call instrumentation exceeds the maximum number of arguments")) ∧
    (sendLoadArgumentMetadata envA (CallInfo.init false false false 1 true)
       actionA
       { kind := ArgumentKind.invalid, ptr := false, duplicate := false,
         value := 0, reg := Register.none, name := "", field := FieldKind.none,
         memop := { size := 0, seg := Register.none, disp := 0,
                    base := Register.none, index := Register.none,
                    scale := 1 } }
       instrA 0 0 =
       .error ("NYI argument")) ∧
    (∃ msg : String,
       buildMetadata envB
         (some { kind := ActionKind.call, call := CallKind.before,
                 clean := false, args := [], symbol := "missing" })
         instrA 0 = .error msg) :=
  ⟨buildMetadata_fatal_errors.1 envA _ actionA _ instrA 0 8 (by decide),
   buildMetadata_fatal_errors.2.1 envA _ actionA _ instrA 0 0 rfl (by decide),
   buildMetadata_fatal_errors.2.2 envB _ instrA 0 rfl
     (fun _ => Or.inl (by norm_num [envB]))⟩

/-- C1: every call action successfully built by buildMetadata yields exactly
five named metadata entries, in the fixed order loadArgs, function,
restoreState, restoreRSP, data (the C null-terminator slot following them is
the end of the embedded list), regardless of the number or kinds of
arguments; and the function entry is a single 32-bit relative relocation to
the callee address resolved by symbol lookup, which lies within the 32-bit
addressing range. -/
theorem buildMetadata_call_five_entries (env : Env) (action : ActionSpec)
    (I : InstrInfo) (id : Int) (md : List MetaEntry)
    (hk : action.kind = ActionKind.call)
    (h : buildMetadata env (some action) I id = .ok (some md)) :
    md.map Prod.fst =
      ["loadArgs", "function", "restoreState", "restoreRSP", "data"] ∧
    ∃ addr : Int, 0 ≤ addr ∧ addr ≤ INT32_MAX ∧
      md.get? 1 = some ("function", [Tok.rel32 addr]) ∧
      (∃ sig : TypeSig, addr = env.lookupSymbol action.symbol sig) := by
  cases action with
  | mk k c cl args sym =>
    simp only at hk
    subst hk
    simp only [buildMetadata, buildCallMetadata] at h
    cases hl : loadArgsLoop env ⟨ActionKind.call, c, cl, args, sym⟩ I id args
        0 TYPESIG_EMPTY
        (CallInfo.init cl
          (args.any fun a => a.kind = ArgumentKind.state)
          (c = CallKind.conditional ∨ c = CallKind.conditionalJump)
          args.length (c ≠ CallKind.after)) with
    | error msg => rw [hl] at h; exact absurd h (by simp)
    | ok res =>
      rw [hl] at h
      rcases res with ⟨sig, info1, outArgs⟩
      dsimp only [] at h
      by_cases haddr : env.lookupSymbol sym sig < 0 ∨
          env.lookupSymbol sym sig > INT32_MAX
      · rw [if_pos haddr] at h
        exact absurd h (by simp)
      · rw [if_neg haddr] at h
        simp only [Except.ok.injEq, Option.some.injEq] at h
        subst h
        push_neg at haddr
        exact ⟨rfl, env.lookupSymbol sym sig, haddr.1, haddr.2, rfl, sig, rfl⟩

/-- A concrete one-argument call action for closed instantiation. -/
def actC1 : ActionSpec :=
  { kind := ActionKind.call, call := CallKind.before, clean := false,
    args := [{ kind := ArgumentKind.integer, ptr := false, duplicate := false,
               value := 5, reg := Register.none, name := "",
               field := FieldKind.none,
               memop := { size := 0, seg := Register.none, disp := 0,
                          base := Register.none, index := Register.none,
                          scale := 1 } }], symbol := "f" }

/-- The metadata buildMetadata produces for actC1. -/
def mdC1 : List MetaEntry :=
  [("loadArgs", [Tok.sext32 5 0]),
   ("function", [Tok.rel32 4194304]),
   ("restoreState",
    [Tok.pop Register.rax, Tok.pop Register.rcx, Tok.pop Register.rdx,
     Tok.pop Register.rsi, Tok.pop Register.rdi, Tok.pop Register.r8,
     Tok.pop Register.r9, Tok.pop Register.r10, Tok.pop Register.r11]),
   ("restoreRSP",
    [Tok.byte 0x48, Tok.byte 0x8d, Tok.byte 0xa4, Tok.byte 0x24,
     Tok.int32 0x4000]),
   ("data", [])]

/-- C1 witness: a concrete successful call-action build, with the five-entry
conclusion obtained from the theorem. -/
theorem buildMetadata_call_five_entries_witness :
    buildMetadata envA (some actC1) instrA 1 = .ok (some mdC1) ∧
    mdC1.map Prod.fst =
      ["loadArgs", "function", "restoreState", "restoreRSP", "data"] ∧
    (∃ addr : Int, 0 ≤ addr ∧ addr ≤ INT32_MAX ∧
      mdC1.get? 1 = some ("function", [Tok.rel32 addr]) ∧
      (∃ sig : TypeSig, addr = envA.lookupSymbol actC1.symbol sig)) := by
  have h : buildMetadata envA (some actC1) instrA 1 = .ok (some mdC1) := by
    rfl
  have hthm := buildMetadata_call_five_entries envA actC1 instrA 1 mdC1 rfl h
  exact ⟨h, hthm.1, hthm.2⟩

/-- C5 counterexample: a memory operand requested by value outside both
refusal situations of the claim — call timing is before the instruction, the
mnemonic is neither lea nor nop, and the operand access mask is 1 (read) —
is still refused: the operand size 16 exceeds the encoder widths, so a
diagnostic is emitted, constant 0 is substituted and the type is the null
pointer, contradicting the claim that in all other cases the operand memory
contents are loaded. -/
theorem sendLoadArgumentMetadata_memop_third_refusal :
    (CallKind.before ≠ CallKind.after) ∧
    (Mnemonic.other "movaps" ≠ Mnemonic.lea) ∧
    (Mnemonic.other "movaps" ≠ Mnemonic.nop) ∧
    ((1 : Access) ≠ 0) ∧
    getOperand
      ⟨0x1000, 4, 0, Mnemonic.other "movaps",
       [⟨OpType.mem, 16, 1, Register.none,
         ⟨Register.none, 0, Register.rax, Register.none, 1⟩, 0⟩],
       "movaps", []⟩
      0 (argOpTypeFilter ArgumentKind.op) (argAccessFilter ArgumentKind.op) =
      some ⟨OpType.mem, 16, 1, Register.none,
            ⟨Register.none, 0, Register.rax, Register.none, 1⟩, 0⟩ ∧
    sendLoadArgumentMetadata envA (CallInfo.init false false false 1 true)
      { kind := ActionKind.call, call := CallKind.before, clean := false,
        args := [], symbol := "f" }
      { kind := ArgumentKind.op, ptr := false, duplicate := false,
        value := 0, reg := Register.invalid, name := "",
        field := FieldKind.none,
        memop := { size := 0, seg := Register.none, disp := 0,
                   base := Register.none, index := Register.none,
                   scale := 1 } }
      ⟨0x1000, 4, 0, Mnemonic.other "movaps",
       [⟨OpType.mem, 16, 1, Register.none,
         ⟨Register.none, 0, Register.rax, Register.none, 1⟩, 0⟩],
       "movaps", []⟩
      0 0 =
      .ok (TYPE_NULL_PTR,
           (((CallInfo.init false false false 1 true).clobber
               (getReg 0)).use (getReg 0)),
           ⟨[Tok.byte 0x48, Tok.sext32 0 0],
            ["operand size is too big"]⟩) := by
  refine ⟨by decide, by decide, by decide, by decide, by decide, ?_⟩
  rfl

/-- C5 (amended): for a memory operand requested by value (no pointer, no
sub-field), the dangerous-operand filter refuses the load with a diagnostic,
a constant-0 substitution and the null-pointer type in exactly two
situations — call timing after the instruction, and an operand that the
instruction does not access (zero access mask, or a lea/nop mnemonic).  In
every other situation the load of the operand memory contents is attempted
via the general operand loader, which can itself still fail with a
diagnostic and a zero substitution (for example for operand sizes other
than 1, 2, 4 or 8 bytes). -/
theorem sendLoadArgumentMetadata_memop_value_filter (env : Env)
    (info : CallInfo) (action : ActionSpec) (I : InstrInfo) (id : Int)
    (argno : Nat) (arg : Argument) (op : OpInfo)
    (hk : arg.kind = ArgumentKind.op ∨ arg.kind = ArgumentKind.src ∨
          arg.kind = ArgumentKind.dst ∨ arg.kind = ArgumentKind.imm ∨
          arg.kind = ArgumentKind.reg ∨ arg.kind = ArgumentKind.mem)
    (hp : arg.ptr = false) (hf : arg.field = FieldKind.none)
    (hop : getOperand I arg.value (argOpTypeFilter arg.kind)
             (argAccessFilter arg.kind) = some op)
    (hmem : op.type = OpType.mem) (hregno : 0 ≤ getArgRegIdx argno) :
    (action.call = CallKind.after →
       sendLoadArgumentMetadata env info action arg I id argno =
         .ok (TYPE_NULL_PTR,
              ((((sendSaveRegToStack info
                    (getReg (getArgRegIdx argno))).2.1).clobber
                  (getReg (getArgRegIdx argno))).use
                (getReg (getArgRegIdx argno))),
              (sendSaveRegToStack info (getReg (getArgRegIdx argno))).2.2 ++
              warnZero "operand may be invalid after instruction"
                (getArgRegIdx argno))) ∧
    (action.call ≠ CallKind.after →
       (I.mnemonic = Mnemonic.lea ∨ I.mnemonic = Mnemonic.nop ∨
        op.access = 0) →
       sendLoadArgumentMetadata env info action arg I id argno =
         .ok (TYPE_NULL_PTR,
              ((((sendSaveRegToStack info
                    (getReg (getArgRegIdx argno))).2.1).clobber
                  (getReg (getArgRegIdx argno))).use
                (getReg (getArgRegIdx argno))),
              (sendSaveRegToStack info (getReg (getArgRegIdx argno))).2.2 ++
              warnZero "operand is not accessed by the instruction"
                (getArgRegIdx argno))) ∧
    (action.call ≠ CallKind.after → I.mnemonic ≠ Mnemonic.lea →
       I.mnemonic ≠ Mnemonic.nop → op.access ≠ 0 →
       ∃ (loaded : Bool) (info1 : CallInfo) (o : Out),
         sendLoadOperandMetadata I op false FieldKind.none
             ((sendSaveRegToStack info (getReg (getArgRegIdx argno))).2.1)
             (getArgRegIdx argno) = .ok (loaded, info1, o) ∧
         sendLoadArgumentMetadata env info action arg I id argno =
           .ok ((if loaded then
                   getOperandType I (some op) false FieldKind.none
                 else TYPE_NULL_PTR),
                ((info1.clobber (getReg (getArgRegIdx argno))).use
                  (getReg (getArgRegIdx argno))),
                (sendSaveRegToStack info (getReg (getArgRegIdx argno))).2.2 ++
                o)) := by
  obtain ⟨k, p, dup, v, rg, nm, fl, mo⟩ := arg
  obtain ⟨opt, osz, oac, org, omm, oim⟩ := op
  simp only at hk hp hf hop hmem
  subst hp; subst hf; subst hmem
  have hnlt : ¬ getArgRegIdx argno < 0 := not_lt.mpr hregno
  rcases hsv : sendSaveRegToStack info (getReg (getArgRegIdx argno))
    with ⟨ok0, info0, out0⟩
  rcases hk with rfl | rfl | rfl | rfl | rfl | rfl <;>
    refine ⟨fun hc => by
        simp [sendLoadArgumentMetadata, hnlt, hsv, loadArgumentCore, hop, hc],
      fun hc hd => by
        have hd1 : I.mnemonic = Mnemonic.lea ∨ I.mnemonic = Mnemonic.nop ∨
            oac = 0 := by simpa using hd
        rcases hd1 with h1 | h1 | h1 <;>
          simp [sendLoadArgumentMetadata, hnlt, hsv, loadArgumentCore, hop,
            hc, h1],
      fun hc hl hn ha => by
        rcases hld : sendLoadFromMemOpToR64 I info0 osz omm.seg omm.disp
            omm.base omm.index omm.scale false (getArgRegIdx argno)
          with ⟨loaded, info1, o⟩
        exact ⟨loaded, info1, o,
          by simp [sendLoadOperandMetadata, hld],
          by simp [sendLoadArgumentMetadata, hnlt, hsv, loadArgumentCore,
            hop, hc, hl, hn, ha, sendLoadOperandMetadata, hld]⟩⟩

/-- C5 witness: the dangerous-operand filter instantiated at a concrete
CALL_AFTER action over an 8-byte read memory operand — the post-instruction
memory read is refused with the diagnostic, zero substitution and
null-pointer type. -/
theorem sendLoadArgumentMetadata_memop_value_filter_witness :
    sendLoadArgumentMetadata envA (CallInfo.init false false false 1 false)
      { kind := ActionKind.call, call := CallKind.after, clean := false,
        args := [], symbol := "f" }
      { kind := ArgumentKind.op, ptr := false, duplicate := false,
        value := 0, reg := Register.invalid, name := "",
        field := FieldKind.none,
        memop := { size := 0, seg := Register.none, disp := 0,
                   base := Register.none, index := Register.none,
                   scale := 1 } }
      ⟨0x1000, 3, 0, Mnemonic.other "mov",
       [⟨OpType.mem, 8, 1, Register.none,
         ⟨Register.none, 0, Register.rax, Register.none, 1⟩, 0⟩],
       "mov", []⟩
      0 0 =
      .ok (TYPE_NULL_PTR,
           ((((sendSaveRegToStack (CallInfo.init false false false 1 false)
                 (getReg (getArgRegIdx 0))).2.1).clobber
               (getReg (getArgRegIdx 0))).use (getReg (getArgRegIdx 0))),
           (sendSaveRegToStack (CallInfo.init false false false 1 false)
             (getReg (getArgRegIdx 0))).2.2 ++
           warnZero "operand may be invalid after instruction"
             (getArgRegIdx 0)) :=
  (sendLoadArgumentMetadata_memop_value_filter envA
    (CallInfo.init false false false 1 false)
    { kind := ActionKind.call, call := CallKind.after, clean := false,
      args := [], symbol := "f" }
    ⟨0x1000, 3, 0, Mnemonic.other "mov",
     [⟨OpType.mem, 8, 1, Register.none,
       ⟨Register.none, 0, Register.rax, Register.none, 1⟩, 0⟩],
     "mov", []⟩
    0 0
    { kind := ArgumentKind.op, ptr := false, duplicate := false,
      value := 0, reg := Register.invalid, name := "",
      field := FieldKind.none,
      memop := { size := 0, seg := Register.none, disp := 0,
                 base := Register.none, index := Register.none,
                 scale := 1 } }
    ⟨OpType.mem, 8, 1, Register.none,
     ⟨Register.none, 0, Register.rax, Register.none, 1⟩, 0⟩
    (Or.inl rfl) rfl rfl (by decide) rfl (by decide)).1 rfl
